import Mathlib

/-! schedcat: shared-resource blocking-bound data model (`native/include/sharedres.h`)

A shallow embedding of the header's data model and aggregator classes.

Conventions of the embedding.

* `unsigned int`, `unsigned long` and `size_t` values are natural numbers; `int`
  values are integers.  A conversion that can change the value (the store of an
  `unsigned int` into a `std::vector<int>`) is written out with `% 2 ^ 32`.
* `std::vector<T>` is `List T`; `push_back` appends at the end.
* A `const` member function guarded by `assert` returns `Option`: `none` is the
  failed assertion.
* A mutating member function guarded by `assert` returns an `Outcome`: either
  `done s` (the object after the call) or `halted s` (the object at the moment
  the assertion failed and the program stopped).
-/

namespace SchedCat

/-! ## Results of mutating calls -/

/-- Result of a call of a mutating member function: `done s` is normal
completion with the object in state `s`; `halted s` is a failed `assert`, the
object being in state `s` when the program stopped. -/
inductive Outcome (σ : Type) where
  | done (s : σ) : Outcome σ
  | halted (s : σ) : Outcome σ
  deriving DecidableEq, Repr

/-- The call stopped at a failed assertion. -/
def Outcome.failed {σ : Type} : Outcome σ → Bool
  | .done _ => false
  | .halted _ => true

/-- The state of the object when the call ended (normally or not). -/
def Outcome.state {σ : Type} : Outcome σ → σ
  | .done s => s
  | .halted s => s

/-! ## Request and task model (sharedres.h:12-176) -/

/-- The enumeration `request_type_t`: `WRITE = 0`, `READ = 1`. -/
inductive request_type_t where
  | WRITE : request_type_t
  | READ : request_type_t
  deriving DecidableEq, Repr

/-- The cast `(request_type_t) type` of an `int` that passed the assertion
`type == WRITE || type == READ`. -/
def request_type_t.of_int (type : Int) : request_type_t :=
  if type = 1 then .READ else .WRITE

/-- The class `RequestBound`.  The back pointer `task` to the owning `TaskInfo`
is an address and has no counterpart here: a request is owned by the task whose
list holds it. -/
structure RequestBound where
  resource_id : Nat
  num_requests : Nat
  request_length : Nat
  request_type : request_type_t
  deriving DecidableEq, Repr

/-- The class `TaskInfo`, fields in declaration order. -/
structure TaskInfo where
  priority : Nat
  period : Nat
  response : Nat
  cluster : Nat
  requests : List RequestBound
  deriving DecidableEq, Repr

/-- The constructor `TaskInfo(_period, _response, _cluster, _priority)`; the
request vector starts empty. -/
def TaskInfo.new (period response cluster priority : Nat) : TaskInfo :=
  { priority := priority, period := period, response := response, cluster := cluster,
    requests := [] }

/-- The member `TaskInfo::add_request`:
`requests.push_back(RequestBound(res_id, num, length, this, type))`. -/
def TaskInfo.add_request (t : TaskInfo) (res_id num length : Nat) (type : request_type_t) :
    TaskInfo :=
  { t with requests := t.requests ++ [RequestBound.mk res_id num length type] }

/-- The getter `RequestBound::get_resource_id`. -/
def RequestBound.get_resource_id (r : RequestBound) : Nat := r.resource_id

/-- The getter `RequestBound::get_num_requests`. -/
def RequestBound.get_num_requests (r : RequestBound) : Nat := r.num_requests

/-- The getter `RequestBound::get_request_length`. -/
def RequestBound.get_request_length (r : RequestBound) : Nat := r.request_length

/-- The getter `RequestBound::get_request_type`. -/
def RequestBound.get_request_type (r : RequestBound) : request_type_t := r.request_type

/-- The member `is_read`: `get_request_type() == READ`. -/
def RequestBound.is_read (r : RequestBound) : Bool := decide (r.get_request_type = .READ)

/-- The member `is_write`: `get_request_type() == WRITE`. -/
def RequestBound.is_write (r : RequestBound) : Bool := decide (r.get_request_type = .WRITE)

/-- The member `TaskInfo::get_requests`. -/
def TaskInfo.get_requests (t : TaskInfo) : List RequestBound := t.requests

/-- The getter `TaskInfo::get_priority`. -/
def TaskInfo.get_priority (t : TaskInfo) : Nat := t.priority

/-- The getter `TaskInfo::get_period`. -/
def TaskInfo.get_period (t : TaskInfo) : Nat := t.period

/-- The getter `TaskInfo::get_response`. -/
def TaskInfo.get_response (t : TaskInfo) : Nat := t.response

/-- The getter `TaskInfo::get_cluster`. -/
def TaskInfo.get_cluster (t : TaskInfo) : Nat := t.cluster

/-- The member `get_total_num_requests`: the loop
`count += it->get_num_requests()` over the requests, from `count = 0`, each
addition in `unsigned int` arithmetic (modulo `2 ^ 32`). -/
def TaskInfo.get_total_num_requests (t : TaskInfo) : Nat :=
  t.requests.foldl (fun count it => (count + it.get_num_requests) % 2 ^ 32) 0

/-- The member `get_num_arrivals`: `get_total_num_requests() + 1` in
`unsigned int` arithmetic. -/
def TaskInfo.get_num_arrivals (t : TaskInfo) : Nat :=
  (t.get_total_num_requests + 1) % 2 ^ 32

/-- The call `std::max(a, b)` at type `unsigned int`: `(a < b) ? b : a`. -/
def std_max_uint (a b : Nat) : Nat := if a < b then b else a

/-- The member `get_max_request_length`: the loop
`len = std::max(len, it->get_request_length())` over the requests, from
`len = 0`. -/
def TaskInfo.get_max_request_length (t : TaskInfo) : Nat :=
  t.requests.foldl (fun len it => std_max_uint len it.get_request_length) 0

/-- The class `ResourceSharingInfo`: the vector `tasks`, with the vector's
`capacity()` kept beside its contents because `add_task` asserts on it. -/
structure ResourceSharingInfo where
  tasks : List TaskInfo
  capacity : Nat
  deriving DecidableEq, Repr

/-- The constructor `ResourceSharingInfo(unsigned int num_tasks)`:
`tasks.reserve(num_tasks)` on the empty vector, which allocates room for
exactly `num_tasks` elements. -/
def ResourceSharingInfo.new (num_tasks : Nat) : ResourceSharingInfo :=
  { tasks := [], capacity := num_tasks }

/-- The member `get_tasks`. -/
def ResourceSharingInfo.get_tasks (info : ResourceSharingInfo) : List TaskInfo := info.tasks

/-- The member `add_task`:
`assert(tasks.size() < tasks.capacity()); tasks.push_back(TaskInfo(...));`.
A `push_back` below capacity leaves the capacity as it is. -/
def ResourceSharingInfo.add_task (info : ResourceSharingInfo)
    (period response cluster priority : Nat) : Outcome ResourceSharingInfo :=
  if info.tasks.length < info.capacity then
    .done { info with tasks := info.tasks ++ [TaskInfo.new period response cluster priority] }
  else .halted info

/-- Apply `f` to the last element of a vector: `f(v.back())` for a mutating
`f`.  The empty vector has no last element and is returned as it is. -/
def update_back {α : Type} (f : α → α) : List α → List α
  | [] => []
  | [a] => [f a]
  | a :: b :: l => a :: update_back f (b :: l)

/-- The member `ResourceSharingInfo::add_request`:
`assert(!tasks.empty()); tasks.back().add_request(resource_id, max_num, max_length);`
with the default `type = WRITE`. -/
def ResourceSharingInfo.add_request (info : ResourceSharingInfo)
    (resource_id max_num max_length : Nat) : Outcome ResourceSharingInfo :=
  if info.tasks.isEmpty then .halted info
  else
    .done { info with
      tasks := update_back
        (fun t => t.add_request resource_id max_num max_length .WRITE) info.tasks }

/-- The member `ResourceSharingInfo::add_request_rw`:
`assert(!tasks.empty()); assert(type == WRITE || type == READ);` then
`tasks.back().add_request(resource_id, max_num, max_length, (request_type_t) type)`. -/
def ResourceSharingInfo.add_request_rw (info : ResourceSharingInfo)
    (resource_id max_num max_length : Nat) (type : Int) : Outcome ResourceSharingInfo :=
  if info.tasks.isEmpty then .halted info
  else if type = 0 ∨ type = 1 then
    .done { info with
      tasks := update_back
        (fun t => t.add_request resource_id max_num max_length (request_type_t.of_int type))
        info.tasks }
  else .halted info

/-- One call on a `ResourceSharingInfo` under construction. -/
inductive BuildCall where
  | add_task (period response cluster priority : Nat) : BuildCall
  | add_request (resource_id max_num max_length : Nat) : BuildCall
  | add_request_rw (resource_id max_num max_length : Nat) (type : Int) : BuildCall
  deriving DecidableEq, Repr

/-- Perform one call. -/
def ResourceSharingInfo.call (info : ResourceSharingInfo) : BuildCall → Outcome ResourceSharingInfo
  | .add_task p r c q => info.add_task p r c q
  | .add_request res n len => info.add_request res n len
  | .add_request_rw res n len ty => info.add_request_rw res n len ty

/-- Perform a sequence of calls in order; the program stops at the first failed
assertion. -/
def ResourceSharingInfo.calls (info : ResourceSharingInfo) :
    List BuildCall → Outcome ResourceSharingInfo
  | [] => .done info
  | c :: cs =>
    match info.call c with
    | .done info1 => info1.calls cs
    | .halted info1 => .halted info1

/-! ## Topology annotations (sharedres.h:179-228) -/

/-- The loop `while (v.size() <= res_id) v.push_back(fill);` shared by
`ResourceLocality::assign_resource` and `ReplicaInfo::set_replicas`. -/
def grow {α : Type} (fill : α) (res_id : Nat) (v : List α) : List α :=
  if v.length ≤ res_id then grow fill res_id (v ++ [fill]) else v
termination_by res_id + 1 - v.length
decreasing_by simp only [List.length_append, List.length_singleton]; omega

/-- The constant `#define NO_CPU (-1)`. -/
def NO_CPU : Int := -1

/-- The conversion of an `unsigned int` to `int` done by the store
`mapping[res_id] = processor`: the value modulo `2 ^ 32` read as a 32-bit
two's-complement number. -/
def uint_to_int (u : Nat) : Int :=
  if u % 2 ^ 32 < 2 ^ 31 then ((u % 2 ^ 32 : Nat) : Int)
  else ((u % 2 ^ 32 : Nat) : Int) - 2 ^ 32

/-- The class `ResourceLocality`: a `std::vector<int>`. -/
structure ResourceLocality where
  mapping : List Int
  deriving DecidableEq, Repr

/-- The default-constructed, empty table. -/
def ResourceLocality.empty : ResourceLocality := { mapping := [] }

/-- The member `assign_resource`: grow the vector with `NO_CPU`, then
`mapping[res_id] = processor`. -/
def ResourceLocality.assign_resource (t : ResourceLocality) (res_id processor : Nat) :
    ResourceLocality :=
  { mapping := (grow NO_CPU res_id t.mapping).set res_id (uint_to_int processor) }

/-- The member `int operator[](unsigned int res_id) const`. -/
def ResourceLocality.op_index (t : ResourceLocality) (res_id : Nat) : Int :=
  if h : t.mapping.length ≤ res_id then NO_CPU
  else t.mapping.get ⟨res_id, Nat.lt_of_not_le h⟩

/-- A sequence of `assign_resource(res_id, processor)` calls, in order. -/
def ResourceLocality.assign_all (t : ResourceLocality) (cs : List (Nat × Nat)) :
    ResourceLocality :=
  cs.foldl (fun acc c => acc.assign_resource c.1 c.2) t

/-- The class `ReplicaInfo`: a `std::vector<unsigned int>`. -/
structure ReplicaInfo where
  num_replicas : List Nat
  deriving DecidableEq, Repr

/-- The default-constructed, empty table. -/
def ReplicaInfo.empty : ReplicaInfo := { num_replicas := [] }

/-- The member `set_replicas`: `assert(replicas >= 1);` then grow the vector
with `1` and store `num_replicas[res_id] = replicas`. -/
def ReplicaInfo.set_replicas (t : ReplicaInfo) (res_id replicas : Nat) : Outcome ReplicaInfo :=
  if replicas ≥ 1 then
    .done { num_replicas := (grow 1 res_id t.num_replicas).set res_id replicas }
  else .halted t

/-- The member `unsigned int operator[](unsigned int res_id) const`. -/
def ReplicaInfo.op_index (t : ReplicaInfo) (res_id : Nat) : Nat :=
  if h : t.num_replicas.length ≤ res_id then 1
  else t.num_replicas.get ⟨res_id, Nat.lt_of_not_le h⟩

/-- A sequence of `set_replicas(res_id, replicas)` calls, in order; the program
stops at the first failed assertion. -/
def ReplicaInfo.set_all (t : ReplicaInfo) : List (Nat × Nat) → Outcome ReplicaInfo
  | [] => .done t
  | c :: cs =>
    match t.set_replicas c.1 c.2 with
    | .done t1 => t1.set_all cs
    | .halted t1 => .halted t1

/-! ## `Interference` (sharedres.h:230-258) -/

/-- The `struct Interference`: `count` is an `unsigned int`, `total_length` an
`unsigned long`. -/
structure Interference where
  count : Nat
  total_length : Nat
  deriving DecidableEq, Repr

/-- The default constructor `Interference() : count(0), total_length(0)`. -/
def Interference.zero : Interference := { count := 0, total_length := 0 }

instance : Inhabited Interference := ⟨Interference.zero⟩

/-- The member `bool operator<(const Interference& other) const`. -/
def Interference.op_lt (a other : Interference) : Bool :=
  decide (a.total_length < other.total_length) ||
    (decide (a.total_length = other.total_length) && decide (a.count < other.count))

/-- The call `std::max(a, b)` at type `Interference`, that is
`(a < b) ? b : a` with the member `operator<`. -/
def Interference.std_max (a b : Interference) : Interference :=
  if a.op_lt b then b else a

/-- The member `operator+=`: `count += other.count;` in `unsigned int`
arithmetic (modulo `2 ^ 32`), then `total_length += other.total_length;` in
`unsigned long` arithmetic (modulo `2 ^ 64`, the LP64 width).  The result is
the new value of `*this`; `other` is a `const` reference and is not written. -/
def Interference.op_add_assign (a other : Interference) : Interference :=
  let a1 : Interference := { a with count := (a.count + other.count) % 2 ^ 32 }
  { a1 with total_length := (a1.total_length + other.total_length) % 2 ^ 64 }

/-- The member `operator+`: a default-constructed `result` whose two fields
are then assigned the two sums, in `unsigned int` and `unsigned long`
arithmetic. -/
def Interference.op_add (a other : Interference) : Interference :=
  let result : Interference := Interference.zero
  let result1 : Interference := { result with count := (a.count + other.count) % 2 ^ 32 }
  { result1 with total_length := (a.total_length + other.total_length) % 2 ^ 64 }

/-- The values an `Interference` object can hold: `count` an `unsigned int`,
`total_length` an `unsigned long`. -/
def Interference.in_range (a : Interference) : Prop :=
  a.count < 2 ^ 32 ∧ a.total_length < 2 ^ 64

instance (a : Interference) : Decidable a.in_range := by
  unfold Interference.in_range; infer_instance

/-- The predicate `count == 0 ⇒ total_length == 0` of the specification. -/
def Interference.well_formed (x : Interference) : Prop :=
  x.count = 0 → x.total_length = 0

instance (x : Interference) : Decidable x.well_formed := by
  unfold Interference.well_formed; infer_instance

/-! ## `BlockingBounds` (sharedres.h:260-387) -/

/-- The class `BlockingBounds`: five vectors of `Interference`. -/
structure BlockingBounds where
  blocking : List Interference
  request_span : List Interference
  arrival : List Interference
  remote : List Interference
  local_ : List Interference
  deriving DecidableEq, Repr

/-- The constructor `BlockingBounds(const ResourceSharingInfo& info)`: all five
vectors get `info.get_tasks().size()` default-constructed entries. -/
def BlockingBounds.of_info (info : ResourceSharingInfo) : BlockingBounds :=
  { blocking := List.replicate info.get_tasks.length Interference.zero
    request_span := List.replicate info.get_tasks.length Interference.zero
    arrival := List.replicate info.get_tasks.length Interference.zero
    remote := List.replicate info.get_tasks.length Interference.zero
    local_ := List.replicate info.get_tasks.length Interference.zero }

/-- The constructor `BlockingBounds(unsigned int num_tasks)`: only `blocking`
and `request_span` are sized; the other three vectors stay empty. -/
def BlockingBounds.of_count (num_tasks : Nat) : BlockingBounds :=
  { blocking := List.replicate num_tasks Interference.zero
    request_span := List.replicate num_tasks Interference.zero
    arrival := []
    remote := []
    local_ := [] }

/-- The member `size()`: `blocking.size()`. -/
def BlockingBounds.size (b : BlockingBounds) : Nat := b.blocking.length

/-- The const `operator[]`: `assert(idx < size()); return blocking[idx];`. -/
def BlockingBounds.op_index (b : BlockingBounds) (idx : Nat) : Option Interference :=
  if idx < b.size then b.blocking[idx]? else none

/-- Assignment through the non-const `operator[]`:
`assert(idx < size()); blocking[idx] = val;`. -/
def BlockingBounds.op_index_assign (b : BlockingBounds) (idx : Nat) (val : Interference) :
    Outcome BlockingBounds :=
  if idx < b.size then .done { b with blocking := b.blocking.set idx val }
  else .halted b

/-- The member `raise_request_span`:
`assert(idx < size()); request_span[idx] = std::max(request_span[idx], val);`.
The read `request_span[idx]` is in range in every object the class can build,
where `request_span` and `blocking` have one length; outside that the C++ has
no defined result and the embedding stops. -/
def BlockingBounds.raise_request_span (b : BlockingBounds) (idx : Nat) (val : Interference) :
    Outcome BlockingBounds :=
  if idx < b.size then
    match b.request_span[idx]? with
    | some cur => .done { b with request_span := b.request_span.set idx (cur.std_max val) }
    | none => .halted b
  else .halted b

/-- The member `get_max_request_span`:
`assert(idx < size()); return request_span[idx];`. -/
def BlockingBounds.get_max_request_span (b : BlockingBounds) (idx : Nat) : Option Interference :=
  if idx < b.size then b.request_span[idx]? else none

/-- The member `get_blocking_term`. -/
def BlockingBounds.get_blocking_term (b : BlockingBounds) (tsk_index : Nat) : Option Nat :=
  if tsk_index < b.blocking.length then (b.blocking[tsk_index]?).map Interference.total_length
  else none

/-- The member `get_blocking_count`. -/
def BlockingBounds.get_blocking_count (b : BlockingBounds) (tsk_index : Nat) : Option Nat :=
  if tsk_index < b.blocking.length then (b.blocking[tsk_index]?).map Interference.count
  else none

/-- The member `get_span_term`: the assertion is on `blocking.size()`, the read
on `request_span`. -/
def BlockingBounds.get_span_term (b : BlockingBounds) (tsk_index : Nat) : Option Nat :=
  if tsk_index < b.blocking.length then
    (b.request_span[tsk_index]?).map Interference.total_length
  else none

/-- The member `get_span_count`: the assertion is on `blocking.size()`, the read
on `request_span`. -/
def BlockingBounds.get_span_count (b : BlockingBounds) (tsk_index : Nat) : Option Nat :=
  if tsk_index < b.blocking.length then (b.request_span[tsk_index]?).map Interference.count
  else none

/-- The member `get_remote_blocking`. -/
def BlockingBounds.get_remote_blocking (b : BlockingBounds) (tsk_index : Nat) : Option Nat :=
  if tsk_index < b.remote.length then (b.remote[tsk_index]?).map Interference.total_length
  else none

/-- The member `get_remote_count`. -/
def BlockingBounds.get_remote_count (b : BlockingBounds) (tsk_index : Nat) : Option Nat :=
  if tsk_index < b.remote.length then (b.remote[tsk_index]?).map Interference.count
  else none

/-- The member `set_remote_blocking`. -/
def BlockingBounds.set_remote_blocking (b : BlockingBounds) (tsk_index : Nat)
    (inf : Interference) : Outcome BlockingBounds :=
  if tsk_index < b.remote.length then .done { b with remote := b.remote.set tsk_index inf }
  else .halted b

/-- The member `get_local_blocking`. -/
def BlockingBounds.get_local_blocking (b : BlockingBounds) (tsk_index : Nat) : Option Nat :=
  if tsk_index < b.local_.length then (b.local_[tsk_index]?).map Interference.total_length
  else none

/-- The member `get_local_count`. -/
def BlockingBounds.get_local_count (b : BlockingBounds) (tsk_index : Nat) : Option Nat :=
  if tsk_index < b.local_.length then (b.local_[tsk_index]?).map Interference.count
  else none

/-- The member `set_local_blocking`. -/
def BlockingBounds.set_local_blocking (b : BlockingBounds) (tsk_index : Nat)
    (inf : Interference) : Outcome BlockingBounds :=
  if tsk_index < b.local_.length then .done { b with local_ := b.local_.set tsk_index inf }
  else .halted b

/-- The member `get_arrival_blocking`. -/
def BlockingBounds.get_arrival_blocking (b : BlockingBounds) (tsk_index : Nat) : Option Nat :=
  if tsk_index < b.arrival.length then (b.arrival[tsk_index]?).map Interference.total_length
  else none

/-- The member `set_arrival_blocking`. -/
def BlockingBounds.set_arrival_blocking (b : BlockingBounds) (tsk_index : Nat)
    (inf : Interference) : Outcome BlockingBounds :=
  if tsk_index < b.arrival.length then .done { b with arrival := b.arrival.set tsk_index inf }
  else .halted b

/-- The `BlockingBounds` objects a program can hold: built by one of the two
constructors and then changed by the mutating members, each call having passed
its assertion. -/
inductive BlockingBounds.Constructible : BlockingBounds → Prop where
  | of_count (num_tasks : Nat) : Constructible (BlockingBounds.of_count num_tasks)
  | of_info (info : ResourceSharingInfo) : Constructible (BlockingBounds.of_info info)
  | op_index_assign {b b1 : BlockingBounds} (idx : Nat) (val : Interference) :
      Constructible b → b.op_index_assign idx val = .done b1 → Constructible b1
  | raise_request_span {b b1 : BlockingBounds} (idx : Nat) (val : Interference) :
      Constructible b → b.raise_request_span idx val = .done b1 → Constructible b1
  | set_remote_blocking {b b1 : BlockingBounds} (idx : Nat) (inf : Interference) :
      Constructible b → b.set_remote_blocking idx inf = .done b1 → Constructible b1
  | set_local_blocking {b b1 : BlockingBounds} (idx : Nat) (inf : Interference) :
      Constructible b → b.set_local_blocking idx inf = .done b1 → Constructible b1
  | set_arrival_blocking {b b1 : BlockingBounds} (idx : Nat) (inf : Interference) :
      Constructible b → b.set_arrival_blocking idx inf = .done b1 → Constructible b1

/-- A sequence of `raise_request_span(idx, v)` calls, one for each `v` of the
list in order; the program stops at the first failed assertion. -/
def BlockingBounds.raise_all (b : BlockingBounds) (idx : Nat) :
    List Interference → Outcome BlockingBounds
  | [] => .done b
  | v :: vs =>
    match b.raise_request_span idx v with
    | .done b1 => b1.raise_all idx vs
    | .halted b1 => .halted b1

/-- The `BlockingBounds` objects built by the constructor from `info` and then
changed by the mutating members, each call having passed its assertion. -/
inductive BlockingBounds.ConstructedFrom (info : ResourceSharingInfo) :
    BlockingBounds → Prop where
  | fresh : ConstructedFrom info (BlockingBounds.of_info info)
  | op_index_assign {b b1 : BlockingBounds} (idx : Nat) (val : Interference) :
      ConstructedFrom info b → b.op_index_assign idx val = .done b1 → ConstructedFrom info b1
  | raise_request_span {b b1 : BlockingBounds} (idx : Nat) (val : Interference) :
      ConstructedFrom info b → b.raise_request_span idx val = .done b1 →
      ConstructedFrom info b1
  | set_remote_blocking {b b1 : BlockingBounds} (idx : Nat) (inf : Interference) :
      ConstructedFrom info b → b.set_remote_blocking idx inf = .done b1 →
      ConstructedFrom info b1
  | set_local_blocking {b b1 : BlockingBounds} (idx : Nat) (inf : Interference) :
      ConstructedFrom info b → b.set_local_blocking idx inf = .done b1 →
      ConstructedFrom info b1
  | set_arrival_blocking {b b1 : BlockingBounds} (idx : Nat) (inf : Interference) :
      ConstructedFrom info b → b.set_arrival_blocking idx inf = .done b1 →
      ConstructedFrom info b1

/-! # Properties -/

/-! ## Helper lemmas -/

theorem getElem?_replicate_zero {n idx : Nat} (h : idx < n) :
    (List.replicate n Interference.zero)[idx]? = some Interference.zero := by
  rw [List.getElem?_eq_getElem (by simpa using h)]
  simp

/-- In every constructible object `request_span` and `blocking` have one
length. -/
theorem BlockingBounds.Constructible.span_length {b : BlockingBounds}
    (hb : b.Constructible) : b.request_span.length = b.blocking.length := by
  induction hb with
  | of_count n => simp [BlockingBounds.of_count]
  | of_info info => simp [BlockingBounds.of_info]
  | op_index_assign idx val _ h ih =>
    unfold BlockingBounds.op_index_assign at h
    split at h
    · cases h; simpa using ih
    · cases h
  | raise_request_span idx val _ h ih =>
    unfold BlockingBounds.raise_request_span at h
    split at h
    · split at h
      · cases h; simpa using ih
      · cases h
    · cases h
  | set_remote_blocking idx inf _ h ih =>
    unfold BlockingBounds.set_remote_blocking at h
    split at h
    · cases h; simpa using ih
    · cases h
  | set_local_blocking idx inf _ h ih =>
    unfold BlockingBounds.set_local_blocking at h
    split at h
    · cases h; simpa using ih
    · cases h
  | set_arrival_blocking idx inf _ h ih =>
    unfold BlockingBounds.set_arrival_blocking at h
    split at h
    · cases h; simpa using ih
    · cases h

/-- Closed form of the growth loop: pad with `fill` up to length `res_id + 1`. -/
theorem grow_eq {α : Type} (fill : α) (res_id : Nat) (v : List α) :
    grow fill res_id v = v ++ List.replicate (res_id + 1 - v.length) fill := by
  induction v using grow.induct fill res_id with
  | case1 v h ih =>
    rw [grow, if_pos h, ih]
    have hk : res_id + 1 - v.length = (res_id + 1 - (v ++ [fill]).length) + 1 := by
      simp only [List.length_append, List.length_singleton]; omega
    rw [hk, List.replicate_succ, List.append_assoc]
    rfl
  | case2 v h =>
    rw [grow, if_neg h]
    have hk : res_id + 1 - v.length = 0 := by omega
    simp [hk]

/-- Reading slot `i` (with default `fill`) after growing to `res_id` and storing
`x` at `res_id`. -/
theorem getD_set_grow {α : Type} (fill x : α) (res_id i : Nat) (v : List α) :
    ((grow fill res_id v).set res_id x).getD i fill =
      if i = res_id then x else v.getD i fill := by
  rw [grow_eq]
  simp only [List.getD_eq_getElem?_getD, List.getElem?_set]
  by_cases h : i = res_id
  · subst h
    have hi : i < v.length + (i + 1 - v.length) := by omega
    simp [hi]
  · rw [if_neg (Ne.symm h), if_neg h]
    by_cases h2 : i < v.length
    · rw [List.getElem?_append_left h2]
    · rw [List.getElem?_append_right (by omega)]
      rw [List.getElem?_eq_none (by omega : v.length ≤ i)]
      simp only [Option.getD_none]
      rw [List.getElem?_replicate]
      split <;> simp

theorem ResourceLocality.mapping_read_eq_getD (t : ResourceLocality) (res_id : Nat) :
    t.op_index res_id = t.mapping.getD res_id NO_CPU := by
  unfold ResourceLocality.op_index
  split
  · rename_i h
    simp [List.getD_eq_getElem?_getD, List.getElem?_eq_none h]
  · rename_i h
    simp [List.getD_eq_getElem?_getD, List.getElem?_eq_getElem (Nat.lt_of_not_le h)]

theorem ResourceLocality.op_index_assign_resource (t : ResourceLocality)
    (res_id processor i : Nat) :
    (t.assign_resource res_id processor).op_index i =
      if i = res_id then uint_to_int processor else t.op_index i := by
  rw [ResourceLocality.mapping_read_eq_getD, ResourceLocality.mapping_read_eq_getD]
  exact getD_set_grow NO_CPU (uint_to_int processor) res_id i t.mapping

/-- Calls on other ids do not change what is read at `r`. -/
theorem ResourceLocality.op_index_assign_all_of_ne (cs : List (Nat × Nat)) (r : Nat)
    (h : ∀ c ∈ cs, c.1 ≠ r) (t : ResourceLocality) :
    (t.assign_all cs).op_index r = t.op_index r := by
  induction cs generalizing t with
  | nil => rfl
  | cons c cs ih =>
    have hc : c.1 ≠ r := h c (List.mem_cons_self _ _)
    have hcs : ∀ d ∈ cs, d.1 ≠ r := fun d hd => h d (List.mem_cons_of_mem _ hd)
    show ((t.assign_resource c.1 c.2).assign_all cs).op_index r = t.op_index r
    rw [ih hcs, ResourceLocality.op_index_assign_resource, if_neg (Ne.symm hc)]

theorem ReplicaInfo.replica_read_eq_getD (t : ReplicaInfo) (res_id : Nat) :
    t.op_index res_id = t.num_replicas.getD res_id 1 := by
  unfold ReplicaInfo.op_index
  split
  · rename_i h
    simp [List.getD_eq_getElem?_getD, List.getElem?_eq_none h]
  · rename_i h
    simp [List.getD_eq_getElem?_getD, List.getElem?_eq_getElem (Nat.lt_of_not_le h)]

/-- What a successful `set_replicas` leaves readable at every id. -/
theorem ReplicaInfo.op_index_of_set_replicas {t t1 : ReplicaInfo} {res_id replicas : Nat}
    (h : t.set_replicas res_id replicas = .done t1) (i : Nat) :
    t1.op_index i = if i = res_id then replicas else t.op_index i := by
  unfold ReplicaInfo.set_replicas at h
  split at h
  · cases h
    rw [ReplicaInfo.replica_read_eq_getD, ReplicaInfo.replica_read_eq_getD]
    exact getD_set_grow 1 replicas res_id i t.num_replicas
  · cases h

theorem ReplicaInfo.set_replicas_done_pos {t t1 : ReplicaInfo} {res_id replicas : Nat}
    (h : t.set_replicas res_id replicas = .done t1) : 1 ≤ replicas := by
  unfold ReplicaInfo.set_replicas at h
  split at h
  · assumption
  · cases h

/-- The sequence of calls completes exactly when every factor is at least 1. -/
theorem ReplicaInfo.set_all_done_iff (cs : List (Nat × Nat)) (t : ReplicaInfo) :
    (∃ t1, t.set_all cs = .done t1) ↔ ∀ c ∈ cs, 1 ≤ c.2 := by
  induction cs generalizing t with
  | nil => simp [ReplicaInfo.set_all]
  | cons c cs ih =>
    simp only [ReplicaInfo.set_all, List.mem_cons, forall_eq_or_imp]
    by_cases hc : 1 ≤ c.2
    · have hd : t.set_replicas c.1 c.2 =
          .done { num_replicas := (grow 1 c.1 t.num_replicas).set c.1 c.2 } := by
        simp [ReplicaInfo.set_replicas, hc]
      rw [hd]
      simp only [hc, true_and]
      exact ih _
    · have hd : t.set_replicas c.1 c.2 = .halted t := by
        simp [ReplicaInfo.set_replicas, hc]
      rw [hd]
      simp [hc]

/-- Reads at `r` are preserved by completed calls on other ids, and the bound
`1 ≤ operator[]` is preserved by every completed sequence. -/
theorem ReplicaInfo.set_all_done_reads (cs : List (Nat × Nat)) (t t1 : ReplicaInfo)
    (h : t.set_all cs = .done t1) :
    (∀ r, (∀ c ∈ cs, c.1 ≠ r) → t1.op_index r = t.op_index r) ∧
    ((∀ r, 1 ≤ t.op_index r) → ∀ r, 1 ≤ t1.op_index r) := by
  induction cs generalizing t with
  | nil =>
    simp only [ReplicaInfo.set_all, Outcome.done.injEq] at h
    subst h
    exact ⟨fun _ _ => rfl, fun hp => hp⟩
  | cons c cs ih =>
    simp only [ReplicaInfo.set_all] at h
    cases hs : t.set_replicas c.1 c.2 with
    | halted t2 => rw [hs] at h; cases h
    | done t2 =>
      rw [hs] at h
      obtain ⟨ih1, ih2⟩ := ih t2 h
      have hrd := ReplicaInfo.op_index_of_set_replicas hs
      have hpos := ReplicaInfo.set_replicas_done_pos hs
      refine ⟨?_, ?_⟩
      · intro r hr
        have hc : c.1 ≠ r := hr c (List.mem_cons_self _ _)
        rw [ih1 r (fun d hd => hr d (List.mem_cons_of_mem _ hd)), hrd, if_neg (Ne.symm hc)]
      · intro hp
        apply ih2
        intro r
        rw [hrd]
        split
        · exact hpos
        · exact hp r

theorem length_update_back {α : Type} (f : α → α) (l : List α) :
    (update_back f l).length = l.length := by
  induction l with
  | nil => rfl
  | cons a l ih =>
    cases l with
    | nil => rfl
    | cons b l => simpa [update_back] using ih

/-- One completed call keeps the capacity and never shrinks the collection by
more than it can: the count stays within a capacity it was within. -/
theorem ResourceSharingInfo.call_done_capacity {info info1 : ResourceSharingInfo}
    {c : BuildCall} (h : info.call c = .done info1) :
    info1.capacity = info.capacity ∧
    (info.tasks.length ≤ info.capacity → info1.tasks.length ≤ info1.capacity) := by
  cases c with
  | add_task p r cl q =>
    simp only [ResourceSharingInfo.call, ResourceSharingInfo.add_task] at h
    split at h
    · rename_i hlt
      cases h
      refine ⟨rfl, fun _ => ?_⟩
      simp only [List.length_append, List.length_singleton]
      omega
    · cases h
  | add_request res n len =>
    simp only [ResourceSharingInfo.call, ResourceSharingInfo.add_request] at h
    split at h
    · cases h
    · cases h
      exact ⟨rfl, fun hle => by simpa [length_update_back] using hle⟩
  | add_request_rw res n len ty =>
    simp only [ResourceSharingInfo.call, ResourceSharingInfo.add_request_rw] at h
    split at h
    · cases h
    · split at h
      · cases h
        exact ⟨rfl, fun hle => by simpa [length_update_back] using hle⟩
      · cases h

/-- A completed sequence of calls keeps the capacity, and the count within it. -/
theorem ResourceSharingInfo.calls_done_capacity (cs : List BuildCall)
    (info info1 : ResourceSharingInfo) (h : info.calls cs = .done info1) :
    info1.capacity = info.capacity ∧
    (info.tasks.length ≤ info.capacity → info1.tasks.length ≤ info1.capacity) := by
  induction cs generalizing info with
  | nil =>
    simp only [ResourceSharingInfo.calls, Outcome.done.injEq] at h
    subst h
    exact ⟨rfl, id⟩
  | cons c cs ih =>
    simp only [ResourceSharingInfo.calls] at h
    cases hc : info.call c with
    | halted i2 => rw [hc] at h; cases h
    | done i2 =>
      rw [hc] at h
      obtain ⟨h1, h2⟩ := ResourceSharingInfo.call_done_capacity hc
      obtain ⟨h3, h4⟩ := ih i2 h
      exact ⟨h3.trans h1, fun hle => h4 (h2 hle)⟩

/-! ## C1 -/

/-- C1: a `BlockingBounds` constructed from a `ResourceSharingInfo` holding `n`
tasks has `size() == n`, and at every index below `n` each of the nine getters
passes its assertion and returns 0. -/
theorem of_info_size_and_zero (info : ResourceSharingInfo) :
    (BlockingBounds.of_info info).size = info.get_tasks.length ∧
    ∀ idx, idx < info.get_tasks.length →
      (BlockingBounds.of_info info).get_blocking_term idx = some 0 ∧
      (BlockingBounds.of_info info).get_blocking_count idx = some 0 ∧
      (BlockingBounds.of_info info).get_span_term idx = some 0 ∧
      (BlockingBounds.of_info info).get_span_count idx = some 0 ∧
      (BlockingBounds.of_info info).get_arrival_blocking idx = some 0 ∧
      (BlockingBounds.of_info info).get_remote_blocking idx = some 0 ∧
      (BlockingBounds.of_info info).get_remote_count idx = some 0 ∧
      (BlockingBounds.of_info info).get_local_blocking idx = some 0 ∧
      (BlockingBounds.of_info info).get_local_count idx = some 0 := by
  refine ⟨by simp [BlockingBounds.size, BlockingBounds.of_info], ?_⟩
  intro idx h
  simp [BlockingBounds.of_info, BlockingBounds.get_blocking_term,
    BlockingBounds.get_blocking_count, BlockingBounds.get_span_term,
    BlockingBounds.get_span_count, BlockingBounds.get_arrival_blocking,
    BlockingBounds.get_remote_blocking, BlockingBounds.get_remote_count,
    BlockingBounds.get_local_blocking, BlockingBounds.get_local_count, h,
    getElem?_replicate_zero h, Interference.zero]

/-- Witness for C1: an info with two tasks (the second with one request). -/
theorem of_info_size_and_zero_witness :
    (BlockingBounds.of_info
      { tasks := [TaskInfo.new 10 5 0 1, (TaskInfo.new 20 7 1 2).add_request 3 2 4 .READ],
        capacity := 2 }).size = 2 ∧
    (BlockingBounds.of_info
      { tasks := [TaskInfo.new 10 5 0 1, (TaskInfo.new 20 7 1 2).add_request 3 2 4 .READ],
        capacity := 2 }).get_local_count 1 = some 0 :=
  ⟨(of_info_size_and_zero _).1,
    ((of_info_size_and_zero
      { tasks := [TaskInfo.new 10 5 0 1, (TaskInfo.new 20 7 1 2).add_request 3 2 4 .READ],
        capacity := 2 }).2 1 (by decide)).2.2.2.2.2.2.2.2⟩

/-! ## C2 -/

/-- C2: in a constructible `BlockingBounds`, `raise_request_span(idx, val)` at
an index below `size()` succeeds and stores at `idx` the `std::max` of the
previous span and `val`: the new span is one of the two, neither of the two is
greater than it under `operator<`, and `get_span_term(idx)` becomes the maximum
of the previous `get_span_term(idx)` and `val.total_length`. -/
theorem raise_request_span_takes_max (b : BlockingBounds) (hb : b.Constructible)
    (idx : Nat) (val : Interference) (hidx : idx < b.size) :
    ∃ prev b1 cur,
      b.get_max_request_span idx = some prev ∧
      b.get_span_term idx = some prev.total_length ∧
      b.raise_request_span idx val = .done b1 ∧
      b1.get_max_request_span idx = some cur ∧
      (cur = prev ∨ cur = val) ∧
      cur.op_lt prev = false ∧ cur.op_lt val = false ∧
      b1.get_span_term idx = some (max prev.total_length val.total_length) := by
  have hlen := hb.span_length
  have hidx1 : idx < b.blocking.length := hidx
  have hidx2 : idx < b.request_span.length := by omega
  have hget : b.request_span[idx]? = some (b.request_span.get ⟨idx, hidx2⟩) := by
    simp [List.getElem?_eq_getElem hidx2]
  refine ⟨b.request_span.get ⟨idx, hidx2⟩,
    { b with request_span :=
        b.request_span.set idx ((b.request_span.get ⟨idx, hidx2⟩).std_max val) },
    (b.request_span.get ⟨idx, hidx2⟩).std_max val, ?_, ?_, ?_, ?_, ?_, ?_, ?_, ?_⟩
  · simp [BlockingBounds.get_max_request_span, hidx, hget]
  · simp [BlockingBounds.get_span_term, hidx1, hget]
  · simp only [BlockingBounds.raise_request_span, hidx, if_true, hget]
  · simp [BlockingBounds.get_max_request_span, BlockingBounds.size, hidx1, hidx2]
  · unfold Interference.std_max
    split <;> simp
  · unfold Interference.std_max
    split
    · rename_i h
      simp only [Interference.op_lt, Bool.or_eq_true, Bool.and_eq_true, decide_eq_true_eq] at h
      simp only [Interference.op_lt, Bool.or_eq_false_iff, Bool.and_eq_false_iff,
        decide_eq_false_iff_not]
      omega
    · simp [Interference.op_lt]
  · unfold Interference.std_max
    split
    · simp [Interference.op_lt]
    · rename_i h
      simpa using h
  · simp only [BlockingBounds.get_span_term, hidx1, if_true]
    rw [List.getElem?_set_self hidx2]
    unfold Interference.std_max
    split
    · rename_i h
      simp only [Interference.op_lt, Bool.or_eq_true, Bool.and_eq_true, decide_eq_true_eq] at h
      simp only [Option.map_some', Option.some.injEq]
      omega
    · rename_i h
      simp only [Interference.op_lt, Bool.or_eq_true, Bool.and_eq_true, decide_eq_true_eq,
        not_or, not_and, not_lt] at h
      simp only [Option.map_some', Option.some.injEq]
      omega

/-- Witness for C2: raising the span of task 1 in a fresh two-task object. -/
theorem raise_request_span_takes_max_witness :
    (BlockingBounds.of_count 2).Constructible ∧ 1 < (BlockingBounds.of_count 2).size ∧
    ∃ prev b1 cur,
      (BlockingBounds.of_count 2).get_max_request_span 1 = some prev ∧
      (BlockingBounds.of_count 2).get_span_term 1 = some prev.total_length ∧
      (BlockingBounds.of_count 2).raise_request_span 1 ⟨3, 7⟩ = .done b1 ∧
      b1.get_max_request_span 1 = some cur ∧
      (cur = prev ∨ cur = ⟨3, 7⟩) ∧
      cur.op_lt prev = false ∧ cur.op_lt ⟨3, 7⟩ = false ∧
      b1.get_span_term 1 = some (max prev.total_length (Interference.mk 3 7).total_length) :=
  ⟨.of_count 2, by decide,
    raise_request_span_takes_max (BlockingBounds.of_count 2) (.of_count 2) 1 ⟨3, 7⟩ (by decide)⟩

/-! ## C3 -/

theorem Interference.op_lt_iff (a b : Interference) :
    a.op_lt b = true ↔
      a.total_length < b.total_length ∨
        (a.total_length = b.total_length ∧ a.count < b.count) := by
  simp [Interference.op_lt]

theorem Interference.ext_iff_fields (a b : Interference) :
    a = b ↔ a.count = b.count ∧ a.total_length = b.total_length := by
  cases a; cases b; simp

/-- C3: `Interference::operator<` is a strict total order, lexicographic by
`total_length` and then by `count`: it is irreflexive and transitive, for all
`a`, `b` exactly one of `a < b`, `b < a`, "equal field by field" holds, and a
smaller `total_length` alone decides `a < b`. -/
theorem op_lt_strict_total_order :
    (∀ a : Interference, a.op_lt a = false) ∧
    (∀ a b c : Interference, a.op_lt b = true → b.op_lt c = true → a.op_lt c = true) ∧
    (∀ a b : Interference,
      (a.op_lt b = true ∧ b.op_lt a = false ∧
          ¬ (a.count = b.count ∧ a.total_length = b.total_length)) ∨
      (a.op_lt b = false ∧ b.op_lt a = true ∧
          ¬ (a.count = b.count ∧ a.total_length = b.total_length)) ∨
      (a.op_lt b = false ∧ b.op_lt a = false ∧
          (a.count = b.count ∧ a.total_length = b.total_length))) ∧
    (∀ a b : Interference, a.total_length < b.total_length → a.op_lt b = true) ∧
    (∀ a b : Interference, a.op_lt b = true ↔
      a.total_length < b.total_length ∨
        (a.total_length = b.total_length ∧ a.count < b.count)) := by
  refine ⟨?_, ?_, ?_, ?_, Interference.op_lt_iff⟩
  · intro a
    simp [Interference.op_lt]
  · intro a b c hab hbc
    rw [Interference.op_lt_iff] at hab hbc ⊢
    omega
  · intro a b
    have h1 := Interference.op_lt_iff a b
    have h2 := Interference.op_lt_iff b a
    cases hab : a.op_lt b <;> cases hba : b.op_lt a <;>
      simp only [hab, hba, true_iff, false_iff, Bool.false_eq_true] at h1 h2 <;>
      simp only [true_and, false_and, and_true, and_false, or_false, false_or,
        Bool.false_eq_true, Bool.true_eq_false] <;> omega
  · intro a b h
    rw [Interference.op_lt_iff]
    exact Or.inl h

/-- Witness for C3: the order at three concrete values. -/
theorem op_lt_strict_total_order_witness :
    (Interference.mk 9 1).op_lt ⟨0, 2⟩ = true ∧ (Interference.mk 0 2).op_lt ⟨5, 2⟩ = true ∧
    (Interference.mk 9 1).op_lt ⟨5, 2⟩ = true ∧ (Interference.mk 9 1).op_lt ⟨9, 1⟩ = false :=
  ⟨op_lt_strict_total_order.2.2.2.1 ⟨9, 1⟩ ⟨0, 2⟩ (by decide), by decide,
    op_lt_strict_total_order.2.1 ⟨9, 1⟩ ⟨0, 2⟩ ⟨5, 2⟩ (by decide) (by decide),
    op_lt_strict_total_order.1 ⟨9, 1⟩⟩

/-! ## C4 -/

/-- C4: in a `ResourceLocality` built from the empty table by any sequence of
`assign_resource` calls, an id `r` that no call named reads as the sentinel
`NO_CPU` (-1), wherever `r` lies relative to the grown table. -/
theorem never_assigned_reads_NO_CPU (cs : List (Nat × Nat)) (r : Nat)
    (h : ∀ c ∈ cs, c.1 ≠ r) :
    (ResourceLocality.empty.assign_all cs).op_index r = NO_CPU ∧ NO_CPU = -1 := by
  refine ⟨?_, rfl⟩
  rw [ResourceLocality.op_index_assign_all_of_ne cs r h]
  simp [ResourceLocality.op_index, ResourceLocality.empty]

/-- Witness for C4: after `assign_resource(3, 1)` and `assign_resource(0, 2)` the
table has four slots; id 1 lies inside it, id 7 beyond it. -/
theorem never_assigned_reads_NO_CPU_witness :
    (ResourceLocality.empty.assign_all [(3, 1), (0, 2)]).mapping.length = 4 ∧
    (ResourceLocality.empty.assign_all [(3, 1), (0, 2)]).op_index 1 = NO_CPU ∧
    (ResourceLocality.empty.assign_all [(3, 1), (0, 2)]).op_index 7 = NO_CPU :=
  ⟨by simp [ResourceLocality.assign_all, ResourceLocality.assign_resource,
      ResourceLocality.empty, grow_eq],
    (never_assigned_reads_NO_CPU [(3, 1), (0, 2)] 1 (by decide)).1,
    (never_assigned_reads_NO_CPU [(3, 1), (0, 2)] 7 (by decide)).1⟩

/-! ## C5 -/

/-- C5: in a `ReplicaInfo` built from the empty table by a sequence of
`set_replicas` calls that all passed their assertion, an id `r` that no call
named reads as 1, wherever `r` lies relative to the grown table. -/
theorem never_set_reads_one (cs : List (Nat × Nat)) (t : ReplicaInfo) (r : Nat)
    (hrun : ReplicaInfo.empty.set_all cs = .done t) (h : ∀ c ∈ cs, c.1 ≠ r) :
    t.op_index r = 1 := by
  rw [(ReplicaInfo.set_all_done_reads cs ReplicaInfo.empty t hrun).1 r h]
  simp [ReplicaInfo.op_index, ReplicaInfo.empty]

/-- Witness for C5: after `set_replicas(3, 2)` and `set_replicas(0, 5)` the table
is `[5, 1, 1, 2]`; id 1 lies inside it, id 7 beyond it. -/
theorem never_set_reads_one_witness :
    ReplicaInfo.empty.set_all [(3, 2), (0, 5)] = .done ⟨[5, 1, 1, 2]⟩ ∧
    (ReplicaInfo.mk [5, 1, 1, 2]).op_index 1 = 1 ∧
    (ReplicaInfo.mk [5, 1, 1, 2]).op_index 7 = 1 :=
  ⟨by simp [ReplicaInfo.set_all, ReplicaInfo.set_replicas, ReplicaInfo.empty, grow_eq],
    never_set_reads_one [(3, 2), (0, 5)] ⟨[5, 1, 1, 2]⟩ 1
      (by simp [ReplicaInfo.set_all, ReplicaInfo.set_replicas, ReplicaInfo.empty, grow_eq])
      (by decide),
    never_set_reads_one [(3, 2), (0, 5)] ⟨[5, 1, 1, 2]⟩ 7
      (by simp [ReplicaInfo.set_all, ReplicaInfo.set_replicas, ReplicaInfo.empty, grow_eq])
      (by decide)⟩

/-! ## C6 -/

/-- Counterexample to C6 as stated: on the empty table, `assign_resource(0, p)`
followed by no further call leaves `operator[](0)` equal to the sentinel
`NO_CPU` for `p = 4294967295`, and equal to `-2147483648` for `p = 2147483648`;
in neither case is the value read back `p`. -/
theorem assign_UINT_MAX_reads_NO_CPU :
    (4294967295 : Nat) < 2 ^ 32 ∧
    ((ResourceLocality.empty.assign_resource 0 4294967295).assign_all []).op_index 0 = NO_CPU ∧
    ((ResourceLocality.empty.assign_resource 0 4294967295).assign_all []).op_index 0
      ≠ ((4294967295 : Nat) : Int) ∧
    ((ResourceLocality.empty.assign_resource 0 2147483648).assign_all []).op_index 0
      = -2147483648 := by
  refine ⟨by norm_num, ?_, ?_, ?_⟩
  · simp [ResourceLocality.assign_all, ResourceLocality.op_index_assign_resource, uint_to_int,
      NO_CPU]
  · simp [ResourceLocality.assign_all, ResourceLocality.op_index_assign_resource, uint_to_int]
  · simp [ResourceLocality.assign_all, ResourceLocality.op_index_assign_resource, uint_to_int]

/-- C6, amended: for a processor id `p ≤ INT_MAX`, after `assign_resource(r, p)`
on any table, followed by any sequence of `assign_resource` calls on ids other
than `r`, `operator[](r)` returns `p`, and therefore a value different from
`NO_CPU`. -/
theorem assigned_reads_processor (t : ResourceLocality) (r p : Nat)
    (cs : List (Nat × Nat)) (hp : p < 2 ^ 31) (h : ∀ c ∈ cs, c.1 ≠ r) :
    ((t.assign_resource r p).assign_all cs).op_index r = (p : Int) ∧
    ((t.assign_resource r p).assign_all cs).op_index r ≠ NO_CPU := by
  have hv : ((t.assign_resource r p).assign_all cs).op_index r = uint_to_int p := by
    rw [ResourceLocality.op_index_assign_all_of_ne cs r h,
      ResourceLocality.op_index_assign_resource, if_pos rfl]
  have hmod : p % 2 ^ 32 = p := Nat.mod_eq_of_lt (by omega)
  rw [hv]
  unfold uint_to_int NO_CPU
  rw [hmod, if_pos hp]
  exact ⟨rfl, by omega⟩

/-- Witness for C6 (amended): processor 5 assigned to id 2, then another id
assigned. -/
theorem assigned_reads_processor_witness :
    ((ResourceLocality.empty.assign_resource 2 5).assign_all [(4, 9)]).op_index 2 = 5 ∧
    ((ResourceLocality.empty.assign_resource 2 5).assign_all [(4, 9)]).op_index 2 ≠ NO_CPU :=
  assigned_reads_processor ResourceLocality.empty 2 5 [(4, 9)] (by norm_num) (by decide)

/-! ## C7 -/

/-- C7: a sequence of `set_replicas` calls from the empty table completes
exactly when every factor passed is at least 1, and in every table so reached
`operator[]` returns at least 1 at every id, set or not. -/
theorem replication_factor_at_least_one (cs : List (Nat × Nat)) :
    ((∃ t, ReplicaInfo.empty.set_all cs = .done t) ↔ ∀ c ∈ cs, 1 ≤ c.2) ∧
    ∀ t, ReplicaInfo.empty.set_all cs = .done t → ∀ r, 1 ≤ t.op_index r := by
  refine ⟨ReplicaInfo.set_all_done_iff cs ReplicaInfo.empty, ?_⟩
  intro t hrun
  apply (ReplicaInfo.set_all_done_reads cs ReplicaInfo.empty t hrun).2
  intro r
  simp [ReplicaInfo.op_index, ReplicaInfo.empty]

/-- Witness for C7: the table reached by `set_replicas(3, 2)`, `set_replicas(0, 5)`
read at a set id, a filled id and an id beyond the table. -/
theorem replication_factor_at_least_one_witness :
    1 ≤ (ReplicaInfo.mk [5, 1, 1, 2]).op_index 3 ∧
    1 ≤ (ReplicaInfo.mk [5, 1, 1, 2]).op_index 2 ∧
    1 ≤ (ReplicaInfo.mk [5, 1, 1, 2]).op_index 9 :=
  ⟨(replication_factor_at_least_one [(3, 2), (0, 5)]).2 ⟨[5, 1, 1, 2]⟩
      (by simp [ReplicaInfo.set_all, ReplicaInfo.set_replicas, ReplicaInfo.empty, grow_eq]) 3,
    (replication_factor_at_least_one [(3, 2), (0, 5)]).2 ⟨[5, 1, 1, 2]⟩
      (by simp [ReplicaInfo.set_all, ReplicaInfo.set_replicas, ReplicaInfo.empty, grow_eq]) 2,
    (replication_factor_at_least_one [(3, 2), (0, 5)]).2 ⟨[5, 1, 1, 2]⟩
      (by simp [ReplicaInfo.set_all, ReplicaInfo.set_replicas, ReplicaInfo.empty, grow_eq]) 9⟩

/-! ## C8 -/

/-- C8: `set_replicas(r, k)` stops at its assertion exactly when `k < 1`, that
is `k == 0`, and then the table is as before; when `k ≥ 1` it completes, after
which `operator[](r)` is `k` and `operator[]` at every other id is as before. -/
theorem set_replicas_contract (t : ReplicaInfo) (r k : Nat) :
    ((t.set_replicas r k).failed = true ↔ k < 1) ∧
    (k < 1 ↔ k = 0) ∧
    ((t.set_replicas r k).failed = true → t.set_replicas r k = .halted t) ∧
    (1 ≤ k → ∃ t1, t.set_replicas r k = .done t1 ∧ t1.op_index r = k ∧
      ∀ r1, r1 ≠ r → t1.op_index r1 = t.op_index r1) := by
  refine ⟨?_, by omega, ?_, ?_⟩
  · unfold ReplicaInfo.set_replicas
    split
    · simp only [Outcome.failed, Bool.false_eq_true, false_iff]; omega
    · simp only [Outcome.failed, true_iff]; omega
  · unfold ReplicaInfo.set_replicas
    split
    · simp [Outcome.failed]
    · intro _; rfl
  · intro hk
    have hd : t.set_replicas r k =
        .done { num_replicas := (grow 1 r t.num_replicas).set r k } := by
      simp [ReplicaInfo.set_replicas, hk]
    refine ⟨_, hd, ?_, ?_⟩
    · rw [ReplicaInfo.op_index_of_set_replicas hd, if_pos rfl]
    · intro r1 hr1
      rw [ReplicaInfo.op_index_of_set_replicas hd, if_neg hr1]

/-- Witness for C8: setting id 1 to 3 in the table `[4]`. -/
theorem set_replicas_contract_witness :
    ∃ t1, (ReplicaInfo.mk [4]).set_replicas 1 3 = .done t1 ∧ t1.op_index 1 = 3 ∧
      ∀ r1, r1 ≠ 1 → t1.op_index r1 = (ReplicaInfo.mk [4]).op_index r1 :=
  (set_replicas_contract ⟨[4]⟩ 1 3).2.2.2 (by decide)

/-! ## C9 -/

/-- C9: `add_request` stops at its assertion exactly when the info holds no
task; `add_request_rw` stops exactly when the info holds no task or `type` is
neither `WRITE` (0) nor `READ` (1); a call that stops leaves the info, and so
the task collection, as it was. -/
theorem add_request_fails_iff (info : ResourceSharingInfo) (res num len : Nat) (type : Int) :
    ((info.add_request res num len).failed = true ↔ info.tasks = []) ∧
    ((info.add_request_rw res num len type).failed = true ↔
      (info.tasks = [] ∨ (type ≠ 0 ∧ type ≠ 1))) ∧
    ((info.add_request res num len).failed = true →
      info.add_request res num len = .halted info ∧
      (info.add_request res num len).state.tasks = info.tasks) ∧
    ((info.add_request_rw res num len type).failed = true →
      info.add_request_rw res num len type = .halted info ∧
      (info.add_request_rw res num len type).state.tasks = info.tasks) := by
  refine ⟨?_, ?_, ?_, ?_⟩
  · unfold ResourceSharingInfo.add_request
    split
    · rename_i h
      simpa [Outcome.failed] using h
    · rename_i h
      simpa [Outcome.failed] using h
  · unfold ResourceSharingInfo.add_request_rw
    split
    · rename_i h
      have h1 : info.tasks = [] := by simpa using h
      simp [Outcome.failed, h1]
    · rename_i h
      have h1 : info.tasks ≠ [] := by simpa using h
      split
      · rename_i h2
        simp only [Outcome.failed, Bool.false_eq_true, false_iff, h1, false_or]
        omega
      · rename_i h2
        simp only [Outcome.failed, true_iff, h1, false_or]
        omega
  · unfold ResourceSharingInfo.add_request
    split
    · intro _; exact ⟨rfl, rfl⟩
    · simp [Outcome.failed]
  · unfold ResourceSharingInfo.add_request_rw
    split
    · intro _; exact ⟨rfl, rfl⟩
    · split
      · simp [Outcome.failed]
      · intro _; exact ⟨rfl, rfl⟩

/-- Witness for C9: `add_request` on a fresh info with room for two tasks, and
`add_request_rw` with discriminator 2 on an info holding one task. -/
theorem add_request_fails_iff_witness :
    (ResourceSharingInfo.new 2).add_request 1 2 3 = .halted (ResourceSharingInfo.new 2) ∧
    (ResourceSharingInfo.mk [TaskInfo.new 10 5 0 1] 2).add_request_rw 1 2 3 2 =
      .halted (ResourceSharingInfo.mk [TaskInfo.new 10 5 0 1] 2) :=
  ⟨((add_request_fails_iff (ResourceSharingInfo.new 2) 1 2 3 0).2.2.1
      ((add_request_fails_iff (ResourceSharingInfo.new 2) 1 2 3 0).1.2 rfl)).1,
    ((add_request_fails_iff (ResourceSharingInfo.mk [TaskInfo.new 10 5 0 1] 2) 1 2 3 2).2.2.2
      ((add_request_fails_iff (ResourceSharingInfo.mk [TaskInfo.new 10 5 0 1] 2) 1 2 3 2).2.1.2
        (Or.inr (by decide)))).1⟩

/-! ## C10 -/

/-- C10: let `info` be reached from `ResourceSharingInfo(c)` by any sequence of
completed `add_task`, `add_request` and `add_request_rw` calls.  Then the task
count is at most `c`; `add_task` passes its assertion exactly when the count is
below `c`; a passing `add_task` appends one task with the given period,
response, cluster and priority and no requests, the count growing by one and
the earlier tasks staying as they were; and with `c == 0` every `add_task`
stops at its assertion. -/
theorem add_task_within_capacity (c : Nat) (cs : List BuildCall) (info : ResourceSharingInfo)
    (hrun : (ResourceSharingInfo.new c).calls cs = .done info) :
    info.tasks.length ≤ c ∧
    (∀ period response cluster priority,
      (info.add_task period response cluster priority).failed = false ↔
        info.tasks.length < c) ∧
    (∀ period response cluster priority, info.tasks.length < c →
      ∃ info1, info.add_task period response cluster priority = .done info1 ∧
        info1.tasks.length = info.tasks.length + 1 ∧
        info1.tasks =
          info.tasks ++ [TaskInfo.mk priority period response cluster []] ∧
        info1.tasks[info.tasks.length]? =
          some (TaskInfo.mk priority period response cluster []) ∧
        (∀ i, i < info.tasks.length → info1.tasks[i]? = info.tasks[i]?) ∧
        info1.tasks.length ≤ c) ∧
    (c = 0 → ∀ period response cluster priority,
      (info.add_task period response cluster priority).failed = true) := by
  obtain ⟨hcap, hle⟩ := ResourceSharingInfo.calls_done_capacity cs _ info hrun
  have hcap1 : info.capacity = c := hcap
  have hle1 : info.tasks.length ≤ c := by
    have := hle (Nat.zero_le _)
    omega
  have hiff : ∀ period response cluster priority,
      (info.add_task period response cluster priority).failed = false ↔
        info.tasks.length < c := by
    intro p r cl q
    unfold ResourceSharingInfo.add_task
    rw [hcap1]
    split
    · rename_i hlt
      simp [Outcome.failed, hlt]
    · rename_i hlt
      simp [Outcome.failed, hlt]
  refine ⟨hle1, hiff, ?_, ?_⟩
  · intro p r cl q hlt
    refine ⟨{ info with tasks := info.tasks ++ [TaskInfo.new p r cl q] }, ?_, ?_, ?_, ?_, ?_, ?_⟩
    · simp [ResourceSharingInfo.add_task, hcap1, hlt]
    · simp
    · rfl
    · simp [TaskInfo.new]
    · intro i hi
      simp [List.getElem?_append_left hi]
    · simp only [List.length_append, List.length_singleton]
      omega
  · intro hc p r cl q
    have hnot : ¬ info.tasks.length < c := by omega
    have := (hiff p r cl q).not.mpr hnot
    simpa using this

/-- Witness for C10: with capacity 2, the calls `add_task`, `add_request`,
`add_task` complete and fill the collection, so a third `add_task` cannot pass;
after the first `add_task` alone a second one passes. -/
theorem add_task_within_capacity_witness :
    (ResourceSharingInfo.new 2).calls
        [.add_task 10 5 0 1, .add_request 3 2 4, .add_task 20 7 1 2] =
      .done ⟨[⟨1, 10, 5, 0, [⟨3, 2, 4, .WRITE⟩]⟩, ⟨2, 20, 7, 1, []⟩], 2⟩ ∧
    (((ResourceSharingInfo.mk
        [⟨1, 10, 5, 0, [⟨3, 2, 4, .WRITE⟩]⟩, ⟨2, 20, 7, 1, []⟩] 2).add_task 30 9 0 3).failed
        = false ↔
      (ResourceSharingInfo.mk
        [⟨1, 10, 5, 0, [⟨3, 2, 4, .WRITE⟩]⟩, ⟨2, 20, 7, 1, []⟩] 2).tasks.length < 2) ∧
    ∃ info1, (ResourceSharingInfo.mk [⟨1, 10, 5, 0, []⟩] 2).add_task 20 7 1 2 = .done info1 ∧
      info1.tasks.length = (ResourceSharingInfo.mk [⟨1, 10, 5, 0, []⟩] 2).tasks.length + 1 :=
  ⟨by decide,
    (add_task_within_capacity 2 [.add_task 10 5 0 1, .add_request 3 2 4, .add_task 20 7 1 2]
      ⟨[⟨1, 10, 5, 0, [⟨3, 2, 4, .WRITE⟩]⟩, ⟨2, 20, 7, 1, []⟩], 2⟩ (by decide)).2.1 30 9 0 3,
    ((add_task_within_capacity 2 [.add_task 10 5 0 1]
        ⟨[⟨1, 10, 5, 0, []⟩], 2⟩ (by decide)).2.2.1 20 7 1 2 (by decide)).imp
      (fun _ h => ⟨h.1, h.2.1⟩)⟩

/-! ## C11 -/

theorem update_back_append_singleton {α : Type} (f : α → α) (front : List α) (last : α) :
    update_back f (front ++ [last]) = front ++ [f last] := by
  induction front with
  | nil => rfl
  | cons a front ih =>
    cases front with
    | nil => rfl
    | cons b front =>
      have hstep : update_back f (a :: b :: front ++ [last]) =
          a :: update_back f (b :: front ++ [last]) := rfl
      rw [hstep, ih]
      rfl

/-- What a completed `add_request` / `add_request_rw` with request kind `ty`
leaves behind, for an info whose tasks are `front ++ [last]`. -/
theorem attach_request_shape (front : List TaskInfo) (last : TaskInfo)
    (res num len : Nat) (ty : request_type_t) :
    update_back (fun t => t.add_request res num len ty) (front ++ [last]) =
      front ++ [{ last with requests := last.requests ++ [RequestBound.mk res num len ty] }] := by
  rw [update_back_append_singleton]
  rfl

/-- C11: let the tasks of `info` be `front ++ [last]` (`front` is `t_0..t_{k-1}`,
`last` is `t_k`).  Then `add_request(res, num, len)` completes, and so does
`add_request_rw(res, num, len, type)` for `type` 0 or 1; afterwards the task
count is as before, the tasks of `front` are as before, and the last task has
the period, response, cluster and priority of `last` and the request list of
`last` followed by one request with resource id `res`, `num_requests` `num`,
`request_length` `len` and kind `WRITE` (for `add_request`) or `type` (for
`add_request_rw`), for which exactly one of `is_read`, `is_write` holds. -/
theorem request_attaches_to_last_task (info : ResourceSharingInfo)
    (front : List TaskInfo) (last : TaskInfo) (res num len : Nat) (type : Int)
    (htasks : info.tasks = front ++ [last]) :
    (∃ info1 last1 req,
      info.add_request res num len = .done info1 ∧
      info1.tasks = front ++ [last1] ∧
      info1.tasks.length = info.tasks.length ∧
      (∀ i, i < front.length → info1.tasks[i]? = info.tasks[i]?) ∧
      info1.tasks[front.length]? = some last1 ∧
      last1.get_period = last.get_period ∧ last1.get_response = last.get_response ∧
      last1.get_cluster = last.get_cluster ∧ last1.get_priority = last.get_priority ∧
      last1.get_requests = last.get_requests ++ [req] ∧
      req.get_resource_id = res ∧ req.get_num_requests = num ∧
      req.get_request_length = len ∧ req.get_request_type = .WRITE ∧
      req.is_write = true ∧ req.is_read = false) ∧
    ((type = 0 ∨ type = 1) →
      ∃ info1 last1 req,
        info.add_request_rw res num len type = .done info1 ∧
        info1.tasks = front ++ [last1] ∧
        info1.tasks.length = info.tasks.length ∧
        (∀ i, i < front.length → info1.tasks[i]? = info.tasks[i]?) ∧
        info1.tasks[front.length]? = some last1 ∧
        last1.get_period = last.get_period ∧ last1.get_response = last.get_response ∧
        last1.get_cluster = last.get_cluster ∧ last1.get_priority = last.get_priority ∧
        last1.get_requests = last.get_requests ++ [req] ∧
        req.get_resource_id = res ∧ req.get_num_requests = num ∧
        req.get_request_length = len ∧
        (type = 0 → req.get_request_type = .WRITE) ∧
        (type = 1 → req.get_request_type = .READ) ∧
        req.is_write = decide (type = 0) ∧ req.is_read = decide (type = 1) ∧
        req.is_read ≠ req.is_write) := by
  have hne : info.tasks.isEmpty = false := by
    rw [htasks]; cases front <;> rfl
  refine ⟨?_, ?_⟩
  · refine ⟨{ info with tasks := front ++
        [{ last with requests := last.requests ++ [RequestBound.mk res num len .WRITE] }] },
      { last with requests := last.requests ++ [RequestBound.mk res num len .WRITE] },
      RequestBound.mk res num len .WRITE, ?_, rfl, ?_, ?_, ?_, rfl, rfl, rfl, rfl, rfl, rfl,
      rfl, rfl, rfl, rfl, rfl⟩
    · simp only [ResourceSharingInfo.add_request, hne, Bool.false_eq_true, if_false]
      rw [htasks, attach_request_shape]
    · simp [htasks]
    · intro i hi
      simp [htasks, List.getElem?_append_left hi]
    · simp
  · intro hty
    refine ⟨{ info with tasks := front ++
        [{ last with requests :=
            last.requests ++ [RequestBound.mk res num len (request_type_t.of_int type)] }] },
      { last with requests :=
          last.requests ++ [RequestBound.mk res num len (request_type_t.of_int type)] },
      RequestBound.mk res num len (request_type_t.of_int type), ?_, rfl, ?_, ?_, ?_, rfl, rfl,
      rfl, rfl, rfl, rfl, rfl, rfl, ?_, ?_, ?_, ?_, ?_⟩
    · simp only [ResourceSharingInfo.add_request_rw, hne, Bool.false_eq_true, if_false, hty,
        if_true]
      rw [htasks, attach_request_shape]
    · simp [htasks]
    · intro i hi
      simp [htasks, List.getElem?_append_left hi]
    · simp
    · intro h0
      simp [RequestBound.get_request_type, request_type_t.of_int, h0]
    · intro h1
      simp [RequestBound.get_request_type, request_type_t.of_int, h1]
    · rcases hty with h | h <;>
        simp [RequestBound.is_write, RequestBound.get_request_type, request_type_t.of_int, h]
    · rcases hty with h | h <;>
        simp [RequestBound.is_read, RequestBound.get_request_type, request_type_t.of_int, h]
    · rcases hty with h | h <;>
        simp [RequestBound.is_read, RequestBound.is_write, RequestBound.get_request_type,
          request_type_t.of_int, h]

/-- Witness for C11: a write request and a read request attached to the second
of two tasks. -/
theorem request_attaches_to_last_task_witness :
    (∃ info1 last1 req,
      (ResourceSharingInfo.mk [TaskInfo.new 10 5 0 1, TaskInfo.new 20 7 1 2] 2).add_request
        3 2 4 = .done info1 ∧
      info1.tasks = [TaskInfo.new 10 5 0 1] ++ [last1] ∧
      last1.get_requests = (TaskInfo.new 20 7 1 2).get_requests ++ [req] ∧
      req.get_resource_id = 3 ∧ req.is_write = true) ∧
    (∃ info1 last1 req,
      (ResourceSharingInfo.mk [TaskInfo.new 10 5 0 1, TaskInfo.new 20 7 1 2] 2).add_request_rw
        3 2 4 1 = .done info1 ∧
      info1.tasks = [TaskInfo.new 10 5 0 1] ++ [last1] ∧
      last1.get_requests = (TaskInfo.new 20 7 1 2).get_requests ++ [req] ∧
      req.get_request_type = .READ) := by
  refine ⟨?_, ?_⟩
  · obtain ⟨info1, last1, req, h1, h2, _, _, _, _, _, _, _, h3, h4, _, _, _, h5, _⟩ :=
      (request_attaches_to_last_task
        (ResourceSharingInfo.mk [TaskInfo.new 10 5 0 1, TaskInfo.new 20 7 1 2] 2)
        [TaskInfo.new 10 5 0 1] (TaskInfo.new 20 7 1 2) 3 2 4 0 rfl).1
    exact ⟨info1, last1, req, h1, h2, h3, h4, h5⟩
  · obtain ⟨info1, last1, req, h1, h2, _, _, _, _, _, _, _, h3, _, _, _, _, h4, _⟩ :=
      (request_attaches_to_last_task
        (ResourceSharingInfo.mk [TaskInfo.new 10 5 0 1, TaskInfo.new 20 7 1 2] 2)
        [TaskInfo.new 10 5 0 1] (TaskInfo.new 20 7 1 2) 3 2 4 1 rfl).2 (Or.inr rfl)
    exact ⟨info1, last1, req, h1, h2, h3, h4 rfl⟩

/-! ## C12 -/

/-- In every object built from `info` all five vectors have the length of the
task collection. -/
theorem BlockingBounds.ConstructedFrom.lengths {info : ResourceSharingInfo}
    {b : BlockingBounds} (hb : b.ConstructedFrom info) :
    b.blocking.length = info.get_tasks.length ∧
    b.request_span.length = info.get_tasks.length ∧
    b.arrival.length = info.get_tasks.length ∧
    b.remote.length = info.get_tasks.length ∧
    b.local_.length = info.get_tasks.length := by
  induction hb with
  | fresh => simp [BlockingBounds.of_info]
  | op_index_assign idx val _ h ih =>
    unfold BlockingBounds.op_index_assign at h
    split at h
    · cases h; simpa using ih
    · cases h
  | raise_request_span idx val _ h ih =>
    unfold BlockingBounds.raise_request_span at h
    split at h
    · split at h
      · cases h; simpa using ih
      · cases h
    · cases h
  | set_remote_blocking idx inf _ h ih =>
    unfold BlockingBounds.set_remote_blocking at h
    split at h
    · cases h; simpa using ih
    · cases h
  | set_local_blocking idx inf _ h ih =>
    unfold BlockingBounds.set_local_blocking at h
    split at h
    · cases h; simpa using ih
    · cases h
  | set_arrival_blocking idx inf _ h ih =>
    unfold BlockingBounds.set_arrival_blocking at h
    split at h
    · cases h; simpa using ih
    · cases h

/-- A guarded read of a vector of length `n` yields a value exactly below `n`. -/
theorem guarded_read_isSome {α β : Type} (l : List α) (f : α → β) (m n idx : Nat)
    (hl : l.length = n) (hm : m = n) :
    (if idx < m then (l[idx]?).map f else none).isSome = true ↔ idx < n := by
  subst hm
  by_cases h : idx < m
  · simp [h, List.getElem?_eq_getElem (by omega : idx < l.length)]
  · simp [h]

/-- C12: in a `BlockingBounds` constructed from a `ResourceSharingInfo` with
`n` tasks, each indexed operation passes its assertion exactly when the index
is below `n`, and a mutating call that stops at its assertion leaves the object
as it was (the reading members are `const`). -/
theorem indexed_operations_checked (info : ResourceSharingInfo) (b : BlockingBounds)
    (hb : b.ConstructedFrom info) (idx : Nat) (val : Interference) :
    ((b.op_index idx).isSome = true ↔ idx < info.get_tasks.length) ∧
    ((b.get_max_request_span idx).isSome = true ↔ idx < info.get_tasks.length) ∧
    ((b.get_blocking_term idx).isSome = true ↔ idx < info.get_tasks.length) ∧
    ((b.get_blocking_count idx).isSome = true ↔ idx < info.get_tasks.length) ∧
    ((b.get_span_term idx).isSome = true ↔ idx < info.get_tasks.length) ∧
    ((b.get_span_count idx).isSome = true ↔ idx < info.get_tasks.length) ∧
    ((b.get_remote_blocking idx).isSome = true ↔ idx < info.get_tasks.length) ∧
    ((b.get_remote_count idx).isSome = true ↔ idx < info.get_tasks.length) ∧
    ((b.get_local_blocking idx).isSome = true ↔ idx < info.get_tasks.length) ∧
    ((b.get_local_count idx).isSome = true ↔ idx < info.get_tasks.length) ∧
    ((b.get_arrival_blocking idx).isSome = true ↔ idx < info.get_tasks.length) ∧
    ((b.op_index_assign idx val).failed = false ↔ idx < info.get_tasks.length) ∧
    ((b.raise_request_span idx val).failed = false ↔ idx < info.get_tasks.length) ∧
    ((b.set_remote_blocking idx val).failed = false ↔ idx < info.get_tasks.length) ∧
    ((b.set_local_blocking idx val).failed = false ↔ idx < info.get_tasks.length) ∧
    ((b.set_arrival_blocking idx val).failed = false ↔ idx < info.get_tasks.length) ∧
    ((b.op_index_assign idx val).failed = true → b.op_index_assign idx val = .halted b) ∧
    ((b.raise_request_span idx val).failed = true →
      b.raise_request_span idx val = .halted b) ∧
    ((b.set_remote_blocking idx val).failed = true →
      b.set_remote_blocking idx val = .halted b) ∧
    ((b.set_local_blocking idx val).failed = true →
      b.set_local_blocking idx val = .halted b) ∧
    ((b.set_arrival_blocking idx val).failed = true →
      b.set_arrival_blocking idx val = .halted b) := by
  obtain ⟨h1, h2, h3, h4, h5⟩ := hb.lengths
  have hopt : ∀ (l : List Interference), l.length = info.get_tasks.length →
      ((if idx < b.size then l[idx]? else none).isSome = true ↔
        idx < info.get_tasks.length) := by
    intro l hl
    have hs : b.size = info.get_tasks.length := h1
    by_cases h : idx < info.get_tasks.length
    · simp [hs, h, List.getElem?_eq_getElem (by omega : idx < l.length)]
    · simp [hs, h]
  refine ⟨hopt _ h1, hopt _ h2,
    guarded_read_isSome _ _ _ _ _ h1 h1, guarded_read_isSome _ _ _ _ _ h1 h1,
    guarded_read_isSome _ _ _ _ _ h2 h1, guarded_read_isSome _ _ _ _ _ h2 h1,
    guarded_read_isSome _ _ _ _ _ h4 h4, guarded_read_isSome _ _ _ _ _ h4 h4,
    guarded_read_isSome _ _ _ _ _ h5 h5, guarded_read_isSome _ _ _ _ _ h5 h5,
    guarded_read_isSome _ _ _ _ _ h3 h3, ?_, ?_, ?_, ?_, ?_, ?_, ?_, ?_, ?_, ?_⟩
  · unfold BlockingBounds.op_index_assign BlockingBounds.size
    rw [h1]
    split <;> simp [Outcome.failed, *]
  · unfold BlockingBounds.raise_request_span BlockingBounds.size
    rw [h1]
    by_cases h : idx < info.get_tasks.length
    · simp [h, List.getElem?_eq_getElem (by omega : idx < b.request_span.length),
        Outcome.failed]
    · simp [h, Outcome.failed]
  · unfold BlockingBounds.set_remote_blocking
    rw [h4]
    split <;> simp [Outcome.failed, *]
  · unfold BlockingBounds.set_local_blocking
    rw [h5]
    split <;> simp [Outcome.failed, *]
  · unfold BlockingBounds.set_arrival_blocking
    rw [h3]
    split <;> simp [Outcome.failed, *]
  · unfold BlockingBounds.op_index_assign
    split
    · simp [Outcome.failed]
    · intro _; rfl
  · unfold BlockingBounds.raise_request_span
    split
    · split
      · simp [Outcome.failed]
      · intro _; rfl
    · intro _; rfl
  · unfold BlockingBounds.set_remote_blocking
    split
    · simp [Outcome.failed]
    · intro _; rfl
  · unfold BlockingBounds.set_local_blocking
    split
    · simp [Outcome.failed]
    · intro _; rfl
  · unfold BlockingBounds.set_arrival_blocking
    split
    · simp [Outcome.failed]
    · intro _; rfl

/-- Witness for C12: in the object built from a two-task info, index 1 is
accepted and index 2 rejected. -/
theorem indexed_operations_checked_witness :
    (BlockingBounds.of_info ⟨[TaskInfo.new 10 5 0 1, TaskInfo.new 20 7 1 2], 2⟩).ConstructedFrom
      ⟨[TaskInfo.new 10 5 0 1, TaskInfo.new 20 7 1 2], 2⟩ ∧
    ((BlockingBounds.of_info
      ⟨[TaskInfo.new 10 5 0 1, TaskInfo.new 20 7 1 2], 2⟩).get_remote_blocking 1).isSome
      = true ∧
    ¬ ((BlockingBounds.of_info
      ⟨[TaskInfo.new 10 5 0 1, TaskInfo.new 20 7 1 2], 2⟩).set_local_blocking 2 ⟨1, 1⟩).failed
      = false :=
  ⟨.fresh,
    (indexed_operations_checked ⟨[TaskInfo.new 10 5 0 1, TaskInfo.new 20 7 1 2], 2⟩ _ .fresh 1
      ⟨1, 1⟩).2.2.2.2.2.2.1.mpr (by decide),
    fun h => absurd
      ((indexed_operations_checked ⟨[TaskInfo.new 10 5 0 1, TaskInfo.new 20 7 1 2], 2⟩ _ .fresh 2
        ⟨1, 1⟩).2.2.2.2.2.2.2.2.2.2.2.2.2.2.1.mp h) (by decide)⟩

/-! ## C13 -/

/-- The counting loop of `get_total_num_requests` started from `c`: the sum
modulo `2 ^ 32`. -/
theorem foldl_count_mod (l : List RequestBound) (c : Nat) (hc : c < 2 ^ 32) :
    l.foldl (fun count it => (count + it.get_num_requests) % 2 ^ 32) c =
      (c + (l.map RequestBound.get_num_requests).sum) % 2 ^ 32 := by
  induction l generalizing c with
  | nil =>
    simp only [List.foldl_nil, List.map_nil, List.sum_nil, Nat.add_zero]
    omega
  | cons r l ih =>
    simp only [List.foldl_cons, List.map_cons, List.sum_cons]
    rw [ih _ (Nat.mod_lt _ (by norm_num))]
    omega

theorem TaskInfo.total_eq_sum_mod (t : TaskInfo) :
    t.get_total_num_requests = (t.requests.map RequestBound.get_num_requests).sum % 2 ^ 32 := by
  unfold TaskInfo.get_total_num_requests
  rw [foldl_count_mod _ 0 (by norm_num), Nat.zero_add]

/-- Counterexample to C13 as stated: with `a = (4294967295, 0)` and `b = (1, 0)`
the count of `a + b`, and of `a` after `a += b`, is 0 and not 4294967296; a task
with two requests of 4294967295 and 1 issuances has `get_total_num_requests()`
0. -/
theorem sums_wrap_around :
    (Interference.mk 4294967295 0).in_range ∧ (Interference.mk 1 0).in_range ∧
    ((Interference.mk 4294967295 0).op_add ⟨1, 0⟩).count = 0 ∧
    ((Interference.mk 4294967295 0).op_add ⟨1, 0⟩).count ≠ 4294967295 + 1 ∧
    ((Interference.mk 4294967295 0).op_add_assign ⟨1, 0⟩).count = 0 ∧
    (TaskInfo.mk 1 10 5 0
      [⟨0, 4294967295, 1, .WRITE⟩, ⟨1, 1, 1, .WRITE⟩]).get_total_num_requests = 0 := by
  refine ⟨by decide, by decide, by decide, by decide, by decide, ?_⟩
  rw [TaskInfo.total_eq_sum_mod]
  decide

/-- C13, amended: sums are taken in unsigned machine arithmetic with no
overflow guard.  The count of `a + b` is `(a.count + b.count) mod 2^32`, its
total length `(a.total_length + b.total_length) mod 2^64`, `a += b` leaves the
same value in `a`, and `get_total_num_requests` is the sum of `num_requests`
modulo `2^32`; each result equals the mathematical sum exactly when that sum
fits the type. -/
theorem sums_are_modular (a b : Interference) (t : TaskInfo) :
    (a.op_add b).count = (a.count + b.count) % 2 ^ 32 ∧
    (a.op_add b).total_length = (a.total_length + b.total_length) % 2 ^ 64 ∧
    a.op_add_assign b = a.op_add b ∧
    t.get_total_num_requests =
      (t.requests.map RequestBound.get_num_requests).sum % 2 ^ 32 ∧
    ((a.op_add b).count = a.count + b.count ↔ a.count + b.count < 2 ^ 32) ∧
    ((a.op_add b).total_length = a.total_length + b.total_length ↔
      a.total_length + b.total_length < 2 ^ 64) ∧
    (t.get_total_num_requests = (t.requests.map RequestBound.get_num_requests).sum ↔
      (t.requests.map RequestBound.get_num_requests).sum < 2 ^ 32) := by
  refine ⟨rfl, rfl, rfl, t.total_eq_sum_mod, ?_, ?_, ?_⟩
  · show (a.count + b.count) % 2 ^ 32 = a.count + b.count ↔ _
    omega
  · show (a.total_length + b.total_length) % 2 ^ 64 = a.total_length + b.total_length ↔ _
    omega
  · rw [t.total_eq_sum_mod]
    omega

/-- Witness for C13 (amended): a sum that fits is exact. -/
theorem sums_are_modular_witness :
    ((Interference.mk 3 7).op_add ⟨4, 9⟩).count = 3 + 4 ∧
    ((Interference.mk 3 7).op_add ⟨4, 9⟩).total_length = 7 + 9 :=
  ⟨(sums_are_modular ⟨3, 7⟩ ⟨4, 9⟩ (TaskInfo.new 10 5 0 1)).2.2.2.2.1.mpr (by norm_num),
    (sums_are_modular ⟨3, 7⟩ ⟨4, 9⟩ (TaskInfo.new 10 5 0 1)).2.2.2.2.2.1.mpr (by norm_num)⟩

/-! ## C14 -/

/-- C14: `get_total_num_requests` is the sum of `num_requests` over all
requests of the task, whatever their resource ids and in whatever order they
were added, modulo `2^32`; it is that sum itself when the sum is at most
`UINT_MAX`, and 0 for a task with no requests; `get_num_arrivals` is that value
plus one, modulo `2^32`. -/
theorem total_num_requests_sum_mod (t : TaskInfo) :
    t.get_total_num_requests =
      (t.requests.map RequestBound.get_num_requests).sum % 2 ^ 32 ∧
    ((t.requests.map RequestBound.get_num_requests).sum ≤ 2 ^ 32 - 1 →
      t.get_total_num_requests = (t.requests.map RequestBound.get_num_requests).sum) ∧
    (t.requests = [] → t.get_total_num_requests = 0) ∧
    t.get_num_arrivals = (t.get_total_num_requests + 1) % 2 ^ 32 ∧
    (∀ t2 : TaskInfo, t2.requests.Perm t.requests →
      t2.get_total_num_requests = t.get_total_num_requests ∧
      t2.get_num_arrivals = t.get_num_arrivals) := by
  refine ⟨t.total_eq_sum_mod, ?_, ?_, rfl, ?_⟩
  · intro h
    rw [t.total_eq_sum_mod]
    omega
  · intro h
    simp [TaskInfo.get_total_num_requests, h]
  · intro t2 hp
    have h : t2.get_total_num_requests = t.get_total_num_requests := by
      rw [t.total_eq_sum_mod, t2.total_eq_sum_mod, (hp.map _).sum_eq]
    exact ⟨h, by unfold TaskInfo.get_num_arrivals; rw [h]⟩

/-- Witness for C14: three requests on two resources, in two orders. -/
theorem total_num_requests_sum_mod_witness :
    (TaskInfo.mk 1 10 5 0
      [⟨0, 2, 1, .WRITE⟩, ⟨1, 3, 1, .READ⟩, ⟨0, 4, 1, .READ⟩]).get_total_num_requests = 9 ∧
    (TaskInfo.mk 1 10 5 0
      [⟨0, 4, 1, .READ⟩, ⟨0, 2, 1, .WRITE⟩, ⟨1, 3, 1, .READ⟩]).get_total_num_requests =
    (TaskInfo.mk 1 10 5 0
      [⟨0, 2, 1, .WRITE⟩, ⟨1, 3, 1, .READ⟩, ⟨0, 4, 1, .READ⟩]).get_total_num_requests :=
  ⟨(total_num_requests_sum_mod _).2.1 (by decide),
    ((total_num_requests_sum_mod (TaskInfo.mk 1 10 5 0
      [⟨0, 2, 1, .WRITE⟩, ⟨1, 3, 1, .READ⟩, ⟨0, 4, 1, .READ⟩])).2.2.2.2
      (TaskInfo.mk 1 10 5 0 [⟨0, 4, 1, .READ⟩, ⟨0, 2, 1, .WRITE⟩, ⟨1, 3, 1, .READ⟩])
      (by decide)).1⟩

/-! ## C15 -/

/-- The maximum loop of `get_max_request_length` started from `c`: the result
is at least `c` and at least every request length, and it is `c` or one of the
request lengths. -/
theorem foldl_max_bounds (l : List RequestBound) (c : Nat) :
    c ≤ l.foldl (fun len it => std_max_uint len it.get_request_length) c ∧
    (∀ r ∈ l, r.get_request_length ≤
      l.foldl (fun len it => std_max_uint len it.get_request_length) c) ∧
    (l.foldl (fun len it => std_max_uint len it.get_request_length) c = c ∨
      ∃ r ∈ l, r.get_request_length =
        l.foldl (fun len it => std_max_uint len it.get_request_length) c) := by
  induction l generalizing c with
  | nil => simp
  | cons x l ih =>
    simp only [List.foldl_cons, List.mem_cons, forall_eq_or_imp, exists_eq_or_imp]
    obtain ⟨h1, h2, h3⟩ := ih (std_max_uint c x.get_request_length)
    have hc : c ≤ std_max_uint c x.get_request_length := by
      unfold std_max_uint; split <;> omega
    have hx : x.get_request_length ≤ std_max_uint c x.get_request_length := by
      unfold std_max_uint; split <;> omega
    have hor : std_max_uint c x.get_request_length = c ∨
        std_max_uint c x.get_request_length = x.get_request_length := by
      unfold std_max_uint; split <;> simp
    refine ⟨by omega, ⟨by omega, h2⟩, ?_⟩
    rcases h3 with h3 | h3
    · rcases hor with h | h
      · left; rw [h3, h]
      · right; left; rw [h3, h]
    · right; right; exact h3

theorem std_max_uint_right_comm (z x y : Nat) :
    std_max_uint (std_max_uint z x) y = std_max_uint (std_max_uint z y) x := by
  unfold std_max_uint
  split_ifs <;> omega

/-- C15: `get_max_request_length` is 0 for a task with no requests; otherwise
it is the `request_length` of one of the task's requests; it is at least the
`request_length` of every request; and it is the same for every order of the
requests. -/
theorem max_request_length_is_maximum (t : TaskInfo) :
    (t.requests = [] → t.get_max_request_length = 0) ∧
    (t.requests ≠ [] → ∃ r ∈ t.requests, r.get_request_length = t.get_max_request_length) ∧
    (∀ r ∈ t.requests, r.get_request_length ≤ t.get_max_request_length) ∧
    (∀ t2 : TaskInfo, t2.requests.Perm t.requests →
      t2.get_max_request_length = t.get_max_request_length) := by
  obtain ⟨_, h2, h3⟩ := foldl_max_bounds t.requests 0
  refine ⟨?_, ?_, h2, ?_⟩
  · intro h
    simp [TaskInfo.get_max_request_length, h]
  · intro hne
    rcases h3 with h3 | h3
    · obtain ⟨x, l, hl⟩ := List.exists_cons_of_ne_nil hne
      refine ⟨x, by rw [hl]; exact List.mem_cons_self _ _, ?_⟩
      have hx := h2 x (by rw [hl]; exact List.mem_cons_self _ _)
      unfold TaskInfo.get_max_request_length
      omega
    · exact h3
  · intro t2 hp
    unfold TaskInfo.get_max_request_length
    exact hp.foldl_eq' (fun x _ y _ z => std_max_uint_right_comm z _ _) 0

/-- Witness for C15: three requests of lengths 4, 9 and 6. -/
theorem max_request_length_is_maximum_witness :
    ∃ r ∈ (TaskInfo.mk 1 10 5 0
        [⟨0, 2, 4, .WRITE⟩, ⟨1, 3, 9, .READ⟩, ⟨0, 4, 6, .READ⟩]).requests,
      r.get_request_length = (TaskInfo.mk 1 10 5 0
        [⟨0, 2, 4, .WRITE⟩, ⟨1, 3, 9, .READ⟩, ⟨0, 4, 6, .READ⟩]).get_max_request_length :=
  (max_request_length_is_maximum (TaskInfo.mk 1 10 5 0
    [⟨0, 2, 4, .WRITE⟩, ⟨1, 3, 9, .READ⟩, ⟨0, 4, 6, .READ⟩])).2.1 (by decide)

/-! ## C16 -/

/-- The default-constructed `Interference` is least: `std::max` of it and `val`
is `val`. -/
theorem Interference.zero_std_max (val : Interference) :
    Interference.zero.std_max val = val := by
  unfold Interference.std_max
  split
  · rfl
  · rename_i h
    simp only [Interference.op_lt, Interference.zero, Bool.or_eq_true, Bool.and_eq_true,
      decide_eq_true_eq, not_or, not_and, not_lt] at h
    rw [Interference.ext_iff_fields]
    simp only [Interference.zero]
    omega

/-- A store `v[idx] = x` below the length: slot `idx` reads `x`, every other
slot reads as before. -/
theorem store_slot (l : List Interference) (idx : Nat) (x : Interference)
    (h : idx < l.length) :
    (l.set idx x)[idx]? = some x ∧ ∀ j, j ≠ idx → (l.set idx x)[j]? = l[j]? := by
  refine ⟨List.getElem?_set_self h, ?_⟩
  intro j hj
  exact List.getElem?_set_ne (Ne.symm hj)

/-- C16: in a `BlockingBounds` constructed from a `ResourceSharingInfo`, at an
index below `size()`, each of the five mutators completes, writes the slot
`idx` of its own category and leaves `size()`, every other slot of that
category and all four other categories as they were.  After
`set_remote_blocking(idx, inf)` the remote getters return `inf.total_length`
and `inf.count`; likewise `set_local_blocking` for the local getters,
`set_arrival_blocking` for `get_arrival_blocking`, and assignment through
`operator[]` for the blocking getters.  After `raise_request_span(idx, inf)` the
span getters return the fields of `std::max(previous, inf)`, which are those of
`inf` in the freshly constructed object. -/
theorem mutators_write_own_slot (info : ResourceSharingInfo) (b : BlockingBounds)
    (hb : b.ConstructedFrom info) (idx : Nat) (inf : Interference) (hidx : idx < b.size) :
    (∃ b1, b.set_remote_blocking idx inf = .done b1 ∧
      b1.get_remote_blocking idx = some inf.total_length ∧
      b1.get_remote_count idx = some inf.count ∧
      b1.size = b.size ∧ (∀ j, j ≠ idx → b1.remote[j]? = b.remote[j]?) ∧
      b1.blocking = b.blocking ∧ b1.request_span = b.request_span ∧
      b1.arrival = b.arrival ∧ b1.local_ = b.local_) ∧
    (∃ b1, b.set_local_blocking idx inf = .done b1 ∧
      b1.get_local_blocking idx = some inf.total_length ∧
      b1.get_local_count idx = some inf.count ∧
      b1.size = b.size ∧ (∀ j, j ≠ idx → b1.local_[j]? = b.local_[j]?) ∧
      b1.blocking = b.blocking ∧ b1.request_span = b.request_span ∧
      b1.arrival = b.arrival ∧ b1.remote = b.remote) ∧
    (∃ b1, b.set_arrival_blocking idx inf = .done b1 ∧
      b1.get_arrival_blocking idx = some inf.total_length ∧
      b1.arrival[idx]? = some inf ∧
      b1.size = b.size ∧ (∀ j, j ≠ idx → b1.arrival[j]? = b.arrival[j]?) ∧
      b1.blocking = b.blocking ∧ b1.request_span = b.request_span ∧
      b1.remote = b.remote ∧ b1.local_ = b.local_) ∧
    (∃ b1, b.op_index_assign idx inf = .done b1 ∧
      b1.op_index idx = some inf ∧
      b1.get_blocking_term idx = some inf.total_length ∧
      b1.get_blocking_count idx = some inf.count ∧
      b1.size = b.size ∧ (∀ j, j ≠ idx → b1.blocking[j]? = b.blocking[j]?) ∧
      b1.request_span = b.request_span ∧ b1.arrival = b.arrival ∧
      b1.remote = b.remote ∧ b1.local_ = b.local_) ∧
    (∃ b1 prev, b.get_max_request_span idx = some prev ∧
      b.raise_request_span idx inf = .done b1 ∧
      b1.get_span_term idx = some (prev.std_max inf).total_length ∧
      b1.get_span_count idx = some (prev.std_max inf).count ∧
      (b = BlockingBounds.of_info info →
        b1.get_span_term idx = some inf.total_length ∧
        b1.get_span_count idx = some inf.count) ∧
      b1.size = b.size ∧ (∀ j, j ≠ idx → b1.request_span[j]? = b.request_span[j]?) ∧
      b1.blocking = b.blocking ∧ b1.arrival = b.arrival ∧
      b1.remote = b.remote ∧ b1.local_ = b.local_) := by
  obtain ⟨h1, h2, h3, h4, h5⟩ := hb.lengths
  have hi1 : idx < b.blocking.length := hidx
  have hi2 : idx < b.request_span.length := by omega
  have hi3 : idx < b.arrival.length := by omega
  have hi4 : idx < b.remote.length := by omega
  have hi5 : idx < b.local_.length := by omega
  refine ⟨?_, ?_, ?_, ?_, ?_⟩
  · obtain ⟨hs, hf⟩ := store_slot b.remote idx inf hi4
    refine ⟨{ b with remote := b.remote.set idx inf }, ?_, ?_, ?_, rfl, hf, rfl, rfl, rfl, rfl⟩
    · simp [BlockingBounds.set_remote_blocking, hi4]
    · simp [BlockingBounds.get_remote_blocking, hi4, hs]
    · simp [BlockingBounds.get_remote_count, hi4, hs]
  · obtain ⟨hs, hf⟩ := store_slot b.local_ idx inf hi5
    refine ⟨{ b with local_ := b.local_.set idx inf }, ?_, ?_, ?_, rfl, hf, rfl, rfl, rfl, rfl⟩
    · simp [BlockingBounds.set_local_blocking, hi5]
    · simp [BlockingBounds.get_local_blocking, hi5, hs]
    · simp [BlockingBounds.get_local_count, hi5, hs]
  · obtain ⟨hs, hf⟩ := store_slot b.arrival idx inf hi3
    refine ⟨{ b with arrival := b.arrival.set idx inf }, ?_, ?_, hs, rfl, hf, rfl, rfl, rfl,
      rfl⟩
    · simp [BlockingBounds.set_arrival_blocking, hi3]
    · simp [BlockingBounds.get_arrival_blocking, hi3, hs]
  · obtain ⟨hs, hf⟩ := store_slot b.blocking idx inf hi1
    refine ⟨{ b with blocking := b.blocking.set idx inf }, ?_, ?_, ?_, ?_, ?_, hf, rfl, rfl,
      rfl, rfl⟩
    · simp [BlockingBounds.op_index_assign, hidx]
    · simp [BlockingBounds.op_index, BlockingBounds.size, hi1, hs]
    · simp [BlockingBounds.get_blocking_term, hi1, hs]
    · simp [BlockingBounds.get_blocking_count, hi1, hs]
    · simp [BlockingBounds.size]
  · have hget : b.request_span[idx]? = some (b.request_span.get ⟨idx, hi2⟩) := by
      simp [List.getElem?_eq_getElem hi2]
    obtain ⟨hs, hf⟩ := store_slot b.request_span idx
      ((b.request_span.get ⟨idx, hi2⟩).std_max inf) hi2
    have hterm : ({ b with request_span :=
          b.request_span.set idx ((b.request_span.get ⟨idx, hi2⟩).std_max inf) } :
          BlockingBounds).get_span_term idx =
        some ((b.request_span.get ⟨idx, hi2⟩).std_max inf).total_length := by
      simp only [BlockingBounds.get_span_term, hi1, if_true, hs, Option.map_some']
    have hcount : ({ b with request_span :=
          b.request_span.set idx ((b.request_span.get ⟨idx, hi2⟩).std_max inf) } :
          BlockingBounds).get_span_count idx =
        some ((b.request_span.get ⟨idx, hi2⟩).std_max inf).count := by
      simp only [BlockingBounds.get_span_count, hi1, if_true, hs, Option.map_some']
    refine ⟨{ b with request_span :=
          b.request_span.set idx ((b.request_span.get ⟨idx, hi2⟩).std_max inf) },
      b.request_span.get ⟨idx, hi2⟩, ?_, ?_, hterm, hcount, ?_, rfl, hf, rfl, rfl, rfl, rfl⟩
    · simp [BlockingBounds.get_max_request_span, hidx, hget]
    · simp only [BlockingBounds.raise_request_span, hidx, if_true, hget]
    · intro hfresh
      have hprev : b.request_span.get ⟨idx, hi2⟩ = Interference.zero := by
        have hz : b.request_span[idx]? = some Interference.zero := by
          rw [hfresh]
          exact getElem?_replicate_zero (by omega)
        rw [hget] at hz
        exact Option.some.inj hz
      have hmax : (b.request_span.get ⟨idx, hi2⟩).std_max inf = inf := by
        rw [hprev, Interference.zero_std_max]
      rw [hmax] at hterm hcount
      rw [hmax]
      exact ⟨hterm, hcount⟩

/-- Witness for C16: `set_remote_blocking(1, (2, 5))` on the object built from a
two-task info. -/
theorem mutators_write_own_slot_witness :
    ∃ b1, (BlockingBounds.of_info
        ⟨[TaskInfo.new 10 5 0 1, TaskInfo.new 20 7 1 2], 2⟩).set_remote_blocking 1 ⟨2, 5⟩
          = .done b1 ∧
      b1.get_remote_blocking 1 = some 5 ∧ b1.get_remote_count 1 = some 2 ∧
      b1.local_ = (BlockingBounds.of_info
        ⟨[TaskInfo.new 10 5 0 1, TaskInfo.new 20 7 1 2], 2⟩).local_ := by
  obtain ⟨b1, h1, h2, h3, _, _, _, _, _, h4⟩ :=
    (mutators_write_own_slot ⟨[TaskInfo.new 10 5 0 1, TaskInfo.new 20 7 1 2], 2⟩
      (BlockingBounds.of_info ⟨[TaskInfo.new 10 5 0 1, TaskInfo.new 20 7 1 2], 2⟩)
      .fresh 1 ⟨2, 5⟩ (by decide)).1
  exact ⟨b1, h1, h2, h3, h4⟩

/-! ## C17 -/

theorem Interference.op_lt_eq_false_iff (a b : Interference) :
    a.op_lt b = false ↔
      b.total_length < a.total_length ∨
        (b.total_length = a.total_length ∧ b.count ≤ a.count) := by
  rw [← Bool.not_eq_true, Interference.op_lt_iff]
  omega

theorem Interference.std_max_cases (a b : Interference) :
    (a.op_lt b = true ∧ a.std_max b = b) ∨ (a.op_lt b = false ∧ a.std_max b = a) := by
  unfold Interference.std_max
  cases h : a.op_lt b <;> simp

theorem Interference.std_max_right_comm (z x y : Interference) :
    (z.std_max x).std_max y = (z.std_max y).std_max x := by
  rcases Interference.std_max_cases z x with ⟨h1, e1⟩ | ⟨h1, e1⟩ <;>
  rcases Interference.std_max_cases z y with ⟨h2, e2⟩ | ⟨h2, e2⟩ <;>
  rw [e1, e2] <;>
  rcases Interference.std_max_cases x y with ⟨h3, e3⟩ | ⟨h3, e3⟩ <;>
  rcases Interference.std_max_cases y x with ⟨h4, e4⟩ | ⟨h4, e4⟩ <;>
  rcases Interference.std_max_cases z x with ⟨h5, e5⟩ | ⟨h5, e5⟩ <;>
  rcases Interference.std_max_cases z y with ⟨h6, e6⟩ | ⟨h6, e6⟩ <;>
  (try rw [e3]) <;> (try rw [e4]) <;> (try rw [e5]) <;>
  (try rw [Interference.ext_iff_fields]) <;>
  simp only [Interference.op_lt_iff, Interference.op_lt_eq_false_iff] at * <;>
  omega

theorem Interference.std_max_idem (p v : Interference) :
    (p.std_max v).std_max v = p.std_max v := by
  rcases Interference.std_max_cases p v with ⟨h1, e1⟩ | ⟨h1, e1⟩ <;> rw [e1]
  · unfold Interference.std_max
    have : v.op_lt v = false := by simp [Interference.op_lt]
    simp [this]
  · unfold Interference.std_max
    simp [h1]

/-- The running maximum from `c` over `l`: not below `c`, not below any element
of `l`, and equal to `c` or to an element of `l`. -/
theorem foldl_std_max_bounds (l : List Interference) (c : Interference) :
    (l.foldl Interference.std_max c).op_lt c = false ∧
    (∀ v ∈ l, (l.foldl Interference.std_max c).op_lt v = false) ∧
    (l.foldl Interference.std_max c = c ∨ l.foldl Interference.std_max c ∈ l) := by
  induction l generalizing c with
  | nil => simp [Interference.op_lt]
  | cons x l ih =>
    simp only [List.foldl_cons, List.mem_cons, forall_eq_or_imp]
    obtain ⟨h1, h2, h3⟩ := ih (c.std_max x)
    have hcx : (c.std_max x).op_lt c = false ∧ (c.std_max x).op_lt x = false := by
      rcases Interference.std_max_cases c x with ⟨h, e⟩ | ⟨h, e⟩
      · rw [e]
        rw [Interference.op_lt_iff] at h
        constructor <;> rw [Interference.op_lt_eq_false_iff] <;> omega
      · rw [e]
        rw [Interference.op_lt_eq_false_iff] at h
        constructor <;> rw [Interference.op_lt_eq_false_iff] <;> omega
    obtain ⟨hc, hx⟩ := hcx
    refine ⟨?_, ⟨?_, h2⟩, ?_⟩
    · rw [Interference.op_lt_eq_false_iff] at h1 hc ⊢
      omega
    · rw [Interference.op_lt_eq_false_iff] at h1 hx ⊢
      omega
    · rcases h3 with h3 | h3
      · rcases Interference.std_max_cases c x with ⟨_, e⟩ | ⟨_, e⟩
        · right; left; rw [h3, e]
        · left; rw [h3, e]
      · right; right; exact h3

/-- Closed form of a sequence of raises at an index in range: slot `idx` of
`request_span` ends as the running maximum, nothing else changes. -/
theorem BlockingBounds.raise_all_eq (vs : List Interference) (b : BlockingBounds) (idx : Nat)
    (h1 : idx < b.blocking.length) (h2 : idx < b.request_span.length) :
    b.raise_all idx vs =
      .done { b with
        request_span := b.request_span.set idx
          (vs.foldl Interference.std_max (b.request_span.getD idx Interference.zero)) } := by
  induction vs generalizing b with
  | nil =>
    have hself : b.request_span.set idx (b.request_span.getD idx Interference.zero) =
        b.request_span := by
      apply List.ext_getElem?
      intro j
      by_cases hj : j = idx
      · subst hj
        rw [List.getElem?_set_self h2, List.getD_eq_getElem?_getD,
          List.getElem?_eq_getElem h2]
        rfl
      · rw [List.getElem?_set_ne (Ne.symm hj)]
    simp only [BlockingBounds.raise_all, List.foldl_nil, hself]
  | cons v vs ih =>
    have hget : b.request_span[idx]? = some (b.request_span.getD idx Interference.zero) := by
      simp [List.getD_eq_getElem?_getD, List.getElem?_eq_getElem h2]
    have hstep : b.raise_request_span idx v =
        .done { b with
          request_span := b.request_span.set idx
            ((b.request_span.getD idx Interference.zero).std_max v) } := by
      simp only [BlockingBounds.raise_request_span, BlockingBounds.size, h1, if_true, hget]
    simp only [BlockingBounds.raise_all, hstep, List.foldl_cons]
    rw [ih { b with
        request_span := b.request_span.set idx
          ((b.request_span.getD idx Interference.zero).std_max v) } h1 (by simpa using h2)]
    simp [List.getD_eq_getElem?_getD, h2]

theorem Interference.std_max_not_below (a x : Interference) :
    (a.std_max x).op_lt a = false := by
  rcases Interference.std_max_cases a x with ⟨h, e⟩ | ⟨h, e⟩
  · rw [e]
    rw [Interference.op_lt_iff] at h
    rw [Interference.op_lt_eq_false_iff]
    omega
  · rw [e]
    simp [Interference.op_lt]

theorem BlockingBounds.read_span_after_store (b : BlockingBounds) (idx : Nat)
    (x : Interference) (h1 : idx < b.blocking.length) (h2 : idx < b.request_span.length) :
    ({ b with request_span := b.request_span.set idx x } :
      BlockingBounds).get_max_request_span idx = some x := by
  simp only [BlockingBounds.get_max_request_span, BlockingBounds.size, h1, if_true]
  exact List.getElem?_set_self h2

/-- C17: in a constructible `BlockingBounds`, at an index below `size()`, the
calls `raise_request_span(idx, v)` for the `v` of a list `vs` in sequence all
complete and leave at `idx` the greatest element, under `operator<`, of the
initial span together with `vs`: it is one of them and none of them is greater.
The resulting object is the same for every permutation of `vs`; raising twice
with one value gives what raising once gives; and after each further raise the
stored span is not less than before it. -/
theorem raise_sequence_keeps_maximum (b : BlockingBounds) (hb : b.Constructible)
    (idx : Nat) (hidx : idx < b.size) (vs : List Interference) :
    ∃ prev b1 fin,
      b.get_max_request_span idx = some prev ∧
      b.raise_all idx vs = .done b1 ∧
      b1.get_max_request_span idx = some fin ∧
      (fin = prev ∨ fin ∈ vs) ∧
      fin.op_lt prev = false ∧ (∀ v ∈ vs, fin.op_lt v = false) ∧
      (∀ vs2 : List Interference, vs2.Perm vs → b.raise_all idx vs2 = .done b1) ∧
      (∀ v : Interference, b.raise_all idx (vs ++ [v, v]) = b.raise_all idx (vs ++ [v])) ∧
      (∀ k : Nat, ∃ bk bk1 sk sk1,
        b.raise_all idx (vs.take k) = .done bk ∧
        b.raise_all idx (vs.take (k + 1)) = .done bk1 ∧
        bk.get_max_request_span idx = some sk ∧
        bk1.get_max_request_span idx = some sk1 ∧
        sk1.op_lt sk = false) := by
  have h1 : idx < b.blocking.length := hidx
  have h2 : idx < b.request_span.length := by have := hb.span_length; omega
  have hprev : b.get_max_request_span idx =
      some (b.request_span.getD idx Interference.zero) := by
    simp [BlockingBounds.get_max_request_span, hidx, List.getD_eq_getElem?_getD,
      List.getElem?_eq_getElem h2]
  obtain ⟨hb1, hb2, hb3⟩ :=
    foldl_std_max_bounds vs (b.request_span.getD idx Interference.zero)
  refine ⟨b.request_span.getD idx Interference.zero, _, _, hprev,
    BlockingBounds.raise_all_eq vs b idx h1 h2,
    BlockingBounds.read_span_after_store b idx _ h1 h2, hb3, hb1, hb2, ?_, ?_, ?_⟩
  · intro vs2 hp
    rw [BlockingBounds.raise_all_eq vs2 b idx h1 h2,
      hp.foldl_eq' (fun x _ y _ z => Interference.std_max_right_comm z x y)]
  · intro v
    rw [BlockingBounds.raise_all_eq _ b idx h1 h2, BlockingBounds.raise_all_eq _ b idx h1 h2]
    simp only [List.foldl_append, List.foldl_cons, List.foldl_nil,
      Interference.std_max_idem]
  · intro k
    refine ⟨_, _, _, _, BlockingBounds.raise_all_eq _ b idx h1 h2,
      BlockingBounds.raise_all_eq _ b idx h1 h2,
      BlockingBounds.read_span_after_store b idx _ h1 h2,
      BlockingBounds.read_span_after_store b idx _ h1 h2, ?_⟩
    rw [List.take_succ, List.foldl_append]
    cases vs[k]? with
    | none => simp [Interference.op_lt]
    | some x =>
      simp only [Option.toList_some, List.foldl_cons, List.foldl_nil]
      exact Interference.std_max_not_below _ _

/-- Witness for C17: three raises on task 0 of a fresh two-task object. -/
theorem raise_sequence_keeps_maximum_witness :
    ∃ prev b1 fin,
      (BlockingBounds.of_count 2).get_max_request_span 0 = some prev ∧
      (BlockingBounds.of_count 2).raise_all 0 [⟨1, 5⟩, ⟨2, 9⟩, ⟨7, 3⟩] = .done b1 ∧
      b1.get_max_request_span 0 = some fin ∧
      (fin = prev ∨ fin ∈ [Interference.mk 1 5, ⟨2, 9⟩, ⟨7, 3⟩]) := by
  obtain ⟨prev, b1, fin, h1, h2, h3, h4, _⟩ :=
    raise_sequence_keeps_maximum (BlockingBounds.of_count 2) (.of_count 2) 0 (by decide)
      [⟨1, 5⟩, ⟨2, 9⟩, ⟨7, 3⟩]
  exact ⟨prev, b1, fin, h1, h2, h3, h4⟩

/-! ## C18 -/

/-- C18: `Interference` addition, with its wrap-around, is a commutative
monoid on the values the type holds, with the default-constructed value as
identity: `a + b == b + a`, `(a + b) + c == a + (b + c)`,
`a + Interference() == a` and `Interference() + a == a`, as whole values and so
field by field; and `a += b` leaves in `a` the value `a + b` (`b` is a `const`
reference and is not written). -/
theorem op_add_commutative_monoid (a b c : Interference) :
    a.op_add b = b.op_add a ∧
    (a.op_add b).op_add c = a.op_add (b.op_add c) ∧
    (a.in_range → a.op_add Interference.zero = a ∧ Interference.zero.op_add a = a) ∧
    a.op_add_assign b = a.op_add b ∧
    (a.op_add_assign b).count = (a.op_add b).count ∧
    (a.op_add_assign b).total_length = (a.op_add b).total_length ∧
    (a.in_range → b.in_range → (a.op_add b).in_range) := by
  refine ⟨?_, ?_, ?_, rfl, rfl, rfl, ?_⟩
  · rw [Interference.ext_iff_fields]
    simp only [Interference.op_add]
    constructor <;> omega
  · rw [Interference.ext_iff_fields]
    simp only [Interference.op_add]
    constructor <;> omega
  · intro h
    obtain ⟨h1, h2⟩ := h
    constructor <;> rw [Interference.ext_iff_fields] <;>
      simp only [Interference.op_add, Interference.zero] <;> constructor <;> omega
  · intro _ _
    simp only [Interference.in_range, Interference.op_add]
    constructor <;> omega

/-- Witness for C18: the identity law at the largest value of each field. -/
theorem op_add_commutative_monoid_witness :
    (Interference.mk 4294967295 18446744073709551615).op_add Interference.zero =
      ⟨4294967295, 18446744073709551615⟩ ∧
    Interference.zero.op_add (Interference.mk 4294967295 18446744073709551615) =
      ⟨4294967295, 18446744073709551615⟩ :=
  (op_add_commutative_monoid ⟨4294967295, 18446744073709551615⟩ ⟨1, 1⟩ ⟨2, 2⟩).2.2.1
    (by decide)

/-! ## C19 -/

/-- C19: the predicate `count == 0 ⇒ total_length == 0` holds of the
default-constructed `Interference` and of every entry of a freshly constructed
`BlockingBounds` (either constructor); it holds of `a + b`, and of `a` after
`a += b`, when it holds of `a` and `b` and `a.count + b.count ≤ UINT_MAX`; and
`raise_request_span(idx, val)` with a `val` satisfying it keeps it on every span
entry. -/
theorem well_formed_is_kept :
    Interference.zero.well_formed ∧
    (∀ (info : ResourceSharingInfo) (x : Interference),
      (x ∈ (BlockingBounds.of_info info).blocking ∨
        x ∈ (BlockingBounds.of_info info).request_span ∨
        x ∈ (BlockingBounds.of_info info).arrival ∨
        x ∈ (BlockingBounds.of_info info).remote ∨
        x ∈ (BlockingBounds.of_info info).local_) → x.well_formed) ∧
    (∀ (n : Nat) (x : Interference),
      (x ∈ (BlockingBounds.of_count n).blocking ∨
        x ∈ (BlockingBounds.of_count n).request_span ∨
        x ∈ (BlockingBounds.of_count n).arrival ∨
        x ∈ (BlockingBounds.of_count n).remote ∨
        x ∈ (BlockingBounds.of_count n).local_) → x.well_formed) ∧
    (∀ a b : Interference, a.well_formed → b.well_formed →
      a.count + b.count ≤ 2 ^ 32 - 1 →
      (a.op_add b).well_formed ∧ (a.op_add_assign b).well_formed) ∧
    (∀ (b : BlockingBounds) (idx : Nat) (val : Interference),
      b.Constructible → idx < b.size →
      (∀ x ∈ b.request_span, x.well_formed) → val.well_formed →
      ∃ b1, b.raise_request_span idx val = .done b1 ∧
        ∀ x ∈ b1.request_span, x.well_formed) := by
  have hz : Interference.zero.well_formed := fun _ => rfl
  refine ⟨hz, ?_, ?_, ?_, ?_⟩
  · intro info x hx
    simp only [BlockingBounds.of_info, List.mem_replicate] at hx
    have hx0 : x = Interference.zero := by tauto
    rw [hx0]; exact hz
  · intro n x hx
    simp only [BlockingBounds.of_count, List.mem_replicate, List.not_mem_nil, or_false] at hx
    have hx0 : x = Interference.zero := by tauto
    rw [hx0]; exact hz
  · intro a b ha hb hsum
    have hadd : (a.op_add b).well_formed := by
      unfold Interference.well_formed at ha hb ⊢
      simp only [Interference.op_add]
      intro h0
      have ha0 : a.count = 0 := by omega
      have hb0 : b.count = 0 := by omega
      have ha1 := ha ha0
      have hb1 := hb hb0
      omega
    exact ⟨hadd, hadd⟩
  · intro b idx val hb hidx hall hval
    have h1 : idx < b.blocking.length := hidx
    have h2 : idx < b.request_span.length := by have := hb.span_length; omega
    have hget : b.request_span[idx]? = some (b.request_span.get ⟨idx, h2⟩) := by
      simp [List.getElem?_eq_getElem h2]
    refine ⟨{ b with request_span :=
        b.request_span.set idx ((b.request_span.get ⟨idx, h2⟩).std_max val) }, ?_, ?_⟩
    · simp only [BlockingBounds.raise_request_span, hidx, if_true, hget]
    · intro x hx
      rcases List.mem_or_eq_of_mem_set hx with hmem | heq
      · exact hall x hmem
      · rw [heq]
        rcases Interference.std_max_cases (b.request_span.get ⟨idx, h2⟩) val with
          ⟨_, e⟩ | ⟨_, e⟩
        · rw [e]; exact hval
        · rw [e]; exact hall _ (List.get_mem _ _ _)

/-- Witness for C19: a sum of two well-formed values, and a raise on a fresh
object. -/
theorem well_formed_is_kept_witness :
    ((Interference.mk 0 0).op_add ⟨2, 9⟩).well_formed ∧
    ∃ b1, (BlockingBounds.of_count 2).raise_request_span 1 ⟨2, 9⟩ = .done b1 ∧
      ∀ x ∈ b1.request_span, x.well_formed :=
  ⟨(well_formed_is_kept.2.2.2.1 ⟨0, 0⟩ ⟨2, 9⟩ (by decide) (by decide) (by decide)).1,
    well_formed_is_kept.2.2.2.2 (BlockingBounds.of_count 2) 1 ⟨2, 9⟩ (.of_count 2) (by decide)
      (by decide) (by decide)⟩

/-! ## C20 -/

/-- C20: the constructor `BlockingBounds(unsigned int n)` sizes only `blocking`
and `request_span`: `size()` is `n` and the four blocking and span getters
return 0 below `n`, while every remote, local and arrival getter and setter
stops at its assertion for every index, the setters leaving the object as it
was. -/
theorem bare_constructor_two_categories (n idx : Nat) (inf : Interference) :
    (BlockingBounds.of_count n).size = n ∧
    (idx < n →
      (BlockingBounds.of_count n).get_blocking_term idx = some 0 ∧
      (BlockingBounds.of_count n).get_blocking_count idx = some 0 ∧
      (BlockingBounds.of_count n).get_span_term idx = some 0 ∧
      (BlockingBounds.of_count n).get_span_count idx = some 0) ∧
    (BlockingBounds.of_count n).get_remote_blocking idx = none ∧
    (BlockingBounds.of_count n).get_remote_count idx = none ∧
    (BlockingBounds.of_count n).set_remote_blocking idx inf =
      .halted (BlockingBounds.of_count n) ∧
    (BlockingBounds.of_count n).get_local_blocking idx = none ∧
    (BlockingBounds.of_count n).get_local_count idx = none ∧
    (BlockingBounds.of_count n).set_local_blocking idx inf =
      .halted (BlockingBounds.of_count n) ∧
    (BlockingBounds.of_count n).get_arrival_blocking idx = none ∧
    (BlockingBounds.of_count n).set_arrival_blocking idx inf =
      .halted (BlockingBounds.of_count n) := by
  refine ⟨by simp [BlockingBounds.size, BlockingBounds.of_count], ?_,
    rfl, rfl, rfl, rfl, rfl, rfl, rfl, rfl⟩
  intro h
  simp [BlockingBounds.of_count, BlockingBounds.get_blocking_term,
    BlockingBounds.get_blocking_count, BlockingBounds.get_span_term,
    BlockingBounds.get_span_count, h, getElem?_replicate_zero h, Interference.zero]

/-- Witness for C20: index 1 of a bare three-task object. -/
theorem bare_constructor_two_categories_witness :
    (BlockingBounds.of_count 3).get_blocking_term 1 = some 0 ∧
    (BlockingBounds.of_count 3).get_blocking_count 1 = some 0 ∧
    (BlockingBounds.of_count 3).get_span_term 1 = some 0 ∧
    (BlockingBounds.of_count 3).get_span_count 1 = some 0 :=
  (bare_constructor_two_categories 3 1 ⟨1, 1⟩).2.1 (by decide)

end SchedCat
